import Mathlib

/-!
# Verification of the dhmcp worker-configuration and session-management core

Shallow embedding of `src/dhmcp/_config.py` and `src/dhmcp/_sessions.py`
(plus the older `_get_worker_config`/`_get_session` pair in
`src/dhmcp/__init__.py` where a claim compares the two builders).

JSON documents are modelled by `JValue`; the host language's value model is
followed where it matters, notably:
* Python truthiness (`pyTruthy`): `""`, `0`, `False`, `None`, `{}`, `[]` are
  falsy;
* `isinstance(True, int)` is `True` in Python, so the `isinstance` check of
  the validator accepts booleans for integer-typed fields;
* `dict.get(k, default)` and ordered insertion / in-place update of dicts.

Stateful module-level caches (`_CONFIG_CACHE`, `_SESSION_CACHE`) are passed
explicitly.  Effects that the claims observe (reading the config source,
calling `get_worker_config`, reading certificate files, constructing a
`Session`, emitting a log line) are recorded in an event trace.  The
downstream `pydeephaven.Session` object is opaque: a construction either
succeeds, yielding a fresh handle identified by an allocation counter, or
fails, as decided by an environment oracle; `Session.is_alive` is likewise an
environment oracle, which may also raise.
-/

set_option autoImplicit false

namespace DhMcp

/-- JSON values as produced by `json.load`. -/
inductive JValue : Type where
  | jnull : JValue
  | jbool : Bool → JValue
  | jint : Int → JValue
  | jstr : String → JValue
  | jarr : List JValue → JValue
  | jobj : List (String × JValue) → JValue

/-- A JSON object: ordered key/value pairs (Python dicts preserve insertion
order; `json.load` never yields duplicate keys). -/
abbrev JObj := List (String × JValue)

/-- First-match association lookup, the shallow model of `d[k]` / `d.get(k)`. -/
def alookup {α : Type} : List (String × α) → String → Option α
  | [], _ => none
  | (k0, v) :: rest, k => if k0 = k then some v else alookup rest k

/-- `d[k] = v` on a Python dict: update in place if the key exists, else
append at the end (insertion order). -/
def aupdate {α : Type} : List (String × α) → String → α → List (String × α)
  | [], k, v => [(k, v)]
  | (k0, v0) :: rest, k, v =>
    if k0 = k then (k, v) :: rest else (k0, v0) :: aupdate rest k v

/-- Python truthiness of a JSON-derived value. -/
def pyTruthy : JValue → Bool
  | .jnull => false
  | .jbool b => b
  | .jint n => n != 0
  | .jstr s => !s.isEmpty
  | .jarr xs => !xs.isEmpty
  | .jobj fs => !fs.isEmpty

/-- Whether a JSON-derived Python value is hashable: lists and dicts are
not, so using one as the operand of `in` on a dict raises `TypeError`. -/
def pyHashable : JValue → Bool
  | .jarr _ => false
  | .jobj _ => false
  | _ => true

/-- An optional-string argument seen as a Python value (`None` or `str`). -/
def argToJVal : Option String → JValue
  | none => .jnull
  | some s => .jstr s

/-- Error taxonomy.  Each constructor corresponds to one exception family of
the source: `configSource` and `configValidation` are the `RuntimeError` resp.
`ValueError` raised by `_load_config`; `workerResolution` is the
`RuntimeError` raised by `get_worker_config`; `certLoad` is the exception
re-raised by `_load_bytes`; `sessionCreation` is a failure of the
`Session(...)` constructor; `typeError` stands for the `TypeError` the host
language raises when an unhashable value (list/dict) is used as the operand
of `in` on a dict, or when a non-dict/non-path value reaches an operation
that needs one. -/
inductive DhError : Type where
  | configSource : String → DhError
  | configValidation : String → DhError
  | workerResolution : String → DhError
  | certLoad : String → DhError
  | sessionCreation : String → DhError
  | typeError : String → DhError

/-- Declared field types of `_ALLOWED_WORKER_FIELDS`:  `str`, `int`, `bool`,
or `(str, type(None))`. -/
inductive FieldType : Type where
  | tStr : FieldType
  | tInt : FieldType
  | tBool : FieldType
  | tStrOrNone : FieldType

/-- `_ALLOWED_WORKER_FIELDS` of `_config.py`, in declaration order. -/
def _ALLOWED_WORKER_FIELDS : List (String × FieldType) :=
  [("host", .tStr), ("port", .tInt), ("auth_type", .tStr), ("auth_token", .tStr),
   ("never_timeout", .tBool), ("session_type", .tStr), ("use_tls", .tBool),
   ("tls_root_certs", .tStrOrNone), ("client_cert_chain", .tStrOrNone),
   ("client_private_key", .tStrOrNone)]

/-- The expected type of an allowed worker field, none for unknown fields. -/
def allowedTypeOf (field : String) : Option FieldType :=
  alookup _ALLOWED_WORKER_FIELDS field

/-- `isinstance(v, expected_type)` for the declared field types.  In Python,
`bool` is a subclass of `int`, so a boolean passes the `int` check. -/
def isinstance : FieldType → JValue → Bool
  | .tStr, .jstr _ => true
  | .tInt, .jint _ => true
  | .tInt, .jbool _ => true
  | .tBool, .jbool _ => true
  | .tStrOrNone, .jstr _ => true
  | .tStrOrNone, .jnull => true
  | _, _ => false

/-- The spec-side reading of "the field value matches the field's declared
type" (string/integer/boolean, the three certificate-path fields also
accepting absent=null).  It differs from `isinstance` exactly at boolean
values in integer-typed fields. -/
def specTypeOk : FieldType → JValue → Bool
  | .tStr, .jstr _ => true
  | .tInt, .jint _ => true
  | .tBool, .jbool _ => true
  | .tStrOrNone, .jstr _ => true
  | .tStrOrNone, .jnull => true
  | _, _ => false

/-! ## `_load_config` validation (`_config.py`, lines 91-133) -/

/-- Top-level key allow-list loop: raise on the first key that is neither
`workers` nor `default_worker`. -/
def validateTopLevel (config : JObj) : Except DhError Unit :=
  match config.find? (fun kv => !(kv.1 == "workers" || kv.1 == "default_worker")) with
  | some kv => .error (.configValidation ("unknown top-level key: " ++ kv.1))
  | none => .ok ()

/-- `workers = config.get("workers")` followed by
`if not isinstance(workers, dict) or not workers: raise`. -/
def validateWorkersShape (config : JObj) : Except DhError JObj :=
  match alookup config "workers" with
  | some (.jobj ws) =>
    if ws.isEmpty then
      .error (.configValidation "must contain a non-empty workers dictionary")
    else .ok ws
  | _ => .error (.configValidation "must contain a non-empty workers dictionary")

/-- `default_worker is not None and default_worker not in workers`.  A JSON
null (or an absent key) is Python `None` and skips the check.  A hashable
non-null value is compared against the (string) keys of `workers`, so only a
string can be a member and a boolean or integer always fails the membership
test with a `ValueError`; an unhashable value (list/dict), however, makes the
`in` test itself raise `TypeError`. -/
def validateDefaultWorker (config : JObj) (ws : JObj) : Except DhError Unit :=
  match alookup config "default_worker" with
  | none => .ok ()
  | some .jnull => .ok ()
  | some (.jstr d) =>
    if (alookup ws d).isSome then .ok ()
    else .error (.configValidation ("default_worker is not a key in workers: " ++ d))
  | some (.jbool _) => .error (.configValidation "default_worker is not a key in workers")
  | some (.jint _) => .error (.configValidation "default_worker is not a key in workers")
  | some (.jarr _) => .error (.typeError "unhashable type: list")
  | some (.jobj _) => .error (.typeError "unhashable type: dict")

/-- Per-worker validation: dict check, unknown-field loop, (empty) required
-field loop, then the type-check loop over `_ALLOWED_WORKER_FIELDS` in
declaration order. -/
def validateWorkerEntry (wname : String) (v : JValue) : Except DhError Unit :=
  match v with
  | .jobj wcfg =>
    match wcfg.find? (fun kv => (allowedTypeOf kv.1).isNone) with
    | some kv => .error (.configValidation ("Unknown field in worker config: " ++ kv.1))
    | none =>
      match _ALLOWED_WORKER_FIELDS.find? (fun ft =>
          match alookup wcfg ft.1 with
          | some value => !isinstance ft.2 value
          | none => false) with
      | some ft => .error (.configValidation ("Field has wrong type: " ++ ft.1))
      | none => .ok ()
  | _ => .error (.configValidation ("Worker is not a dictionary: " ++ wname))

/-- The `for key, worker_cfg in workers.items()` loop: the first raised
error aborts the loop. -/
def validateWorkers : JObj → Except DhError Unit
  | [] => .ok ()
  | (k, v) :: rest =>
    match validateWorkerEntry k v with
    | .error e => .error e
    | .ok _ => validateWorkers rest

/-- Validation of a parsed config document, in source order: top level must
be a dict; only allowed top-level keys; non-empty `workers` dict;
`default_worker` a key of `workers` if present; every worker entry valid.
On success the raw document object is returned (it is what gets cached). -/
def validateConfigObj (config : JObj) : Except DhError JObj :=
  match validateTopLevel config with
  | .error e => .error e
  | .ok _ =>
    match validateWorkersShape config with
    | .error e => .error e
    | .ok ws =>
      match validateDefaultWorker config ws with
      | .error e => .error e
      | .ok _ =>
        match validateWorkers ws with
        | .error e => .error e
        | .ok _ => .ok config

def validateConfig (doc : JValue) : Except DhError JObj :=
  match doc with
  | .jobj config => validateConfigObj config
  | _ => .error (.configValidation "config file is not a JSON object")

/-! ## `_load_config` with cache and external source -/

/-- The external world `_load_config` touches: the `DH_MCP_CONFIG_FILE`
environment variable and the file it points at.  `readJson p = none` means
the file at `p` is unreadable or unparseable. -/
structure ConfigSource where
  envConfigPath : Option String
  readJson : String → Option JValue

/-- Log messages emitted by `get_session` (`_sessions.py`).  Each constructor
carries exactly the dynamic values interpolated into the corresponding
f-string of the source. -/
inductive LogMsg : Type where
  | returningCached : Option String → LogMsg
  | cachedNotAlive : Option String → LogMsg
  | livenessCheckError : Option String → String → LogMsg
  | loadingCert : String → JValue → LogMsg
  | loadedCert : String → LogMsg
  | noCert : String → LogMsg
  | certLoadError : String → String → LogMsg
  | creatingSession : JObj → String → LogMsg
  | sessionCreated : String → LogMsg
  | sessionCached : String → LogMsg

/-- Observable events of a run: reading the config source, a call to
`get_worker_config`, reading a certificate file, a successful `Session(...)`
construction, and log output. -/
inductive Event : Type where
  | readConfigSource : String → Event
  | configFetch : Event
  | certRead : String → Event
  | sessionBuild : Event
  | log : LogMsg → Event

/-- `_load_config` (`_config.py`, lines 58-137): return the cache if primed;
otherwise require a truthy `DH_MCP_CONFIG_FILE`, read and parse the file,
validate, and prime the cache only on full success.  Returns
(result, new cache, events). -/
def _load_config (cache : Option JObj) (src : ConfigSource) :
    Except DhError JObj × Option JObj × List Event :=
  match cache with
  | some c => (.ok c, some c, [])
  | none =>
    match src.envConfigPath with
    | none => (.error (.configSource "DH_MCP_CONFIG_FILE must be set"), none, [])
    | some p =>
      if p.isEmpty then
        (.error (.configSource "DH_MCP_CONFIG_FILE must be set"), none, [])
      else
        match src.readJson p with
        | none => (.error (.configSource ("Failed to load config file: " ++ p)), none,
                   [.readConfigSource p])
        | some doc =>
          match validateConfig doc with
          | .error e => (.error e, none, [.readConfigSource p])
          | .ok config => (.ok config, some config, [.readConfigSource p])

/-- `get_worker_config` (`_config.py`, lines 140-169), the part after
`_load_config` returned a config dict, as a function of the two values it
reads from that dict: `config.get("workers", {})` and
`config.get("default_worker")`.  Reject a falsy or non-dict `workers`;
resolve `worker_name or config.get("default_worker")`; reject a falsy
resolution; look the resolved name up among the workers. -/
def gwcp_core (wv : Option JValue) (dv : Option JValue)
    (worker_name : Option String) : Except DhError JValue :=
  match wv.getD (.jobj []) with
  | .jobj ws =>
    if ws.isEmpty then
      .error (.workerResolution "No workers defined in Deephaven config file")
    else
      if pyTruthy (if pyTruthy (argToJVal worker_name) then argToJVal worker_name
                   else dv.getD .jnull) then
        match (if pyTruthy (argToJVal worker_name) then argToJVal worker_name
               else dv.getD .jnull) with
        | .jstr s =>
          match alookup ws s with
          | some cfg => .ok cfg
          | none => .error (.workerResolution ("Worker not found in config: " ++ s))
        | .jarr _ => .error (.typeError "unhashable type: list")
        | .jobj _ => .error (.typeError "unhashable type: dict")
        | _ => .error (.workerResolution "Worker not found in config")
      else
        .error (.workerResolution "No worker name specified")
  | _ => .error (.workerResolution "No workers defined in Deephaven config file")

def get_worker_config_pure (config : JObj) (worker_name : Option String) :
    Except DhError JValue :=
  gwcp_core (alookup config "workers") (alookup config "default_worker") worker_name

/-- Stateful `get_worker_config`: calls `_load_config` (threading the module
cache) and then resolves; an error from `_load_config` propagates. -/
def get_worker_config (cache : Option JObj) (src : ConfigSource)
    (worker_name : Option String) :
    Except DhError JValue × Option JObj × List Event :=
  match _load_config cache src with
  | (.error e, cache2, tr) => (.error e, cache2, tr)
  | (.ok config, cache2, tr) => (get_worker_config_pure config worker_name, cache2, tr)

/-! ## `get_session` (`_sessions.py`) -/

/-- A value handed to the `Session(...)` constructor: either a JSON-derived
value from the worker config (or a default), or the byte content of a loaded
certificate/key file. -/
inductive PyVal : Type where
  | ofJson : JValue → PyVal
  | bytes : List Nat → PyVal

/-- Python truthiness of a constructor-argument value (bytes are truthy iff
non-empty). -/
def pvTruthy : PyVal → Bool
  | .ofJson v => pyTruthy v
  | .bytes bs => !bs.isEmpty

/-- The ten keyword arguments passed to the `Session(...)` constructor. -/
structure SessionParams : Type where
  host : PyVal
  port : PyVal
  auth_type : PyVal
  auth_token : PyVal
  never_timeout : PyVal
  session_type : PyVal
  use_tls : PyVal
  tls_root_certs : PyVal
  client_cert_chain : PyVal
  client_private_key : PyVal

/-- `cfg.get(k, default)`. -/
def cfgGet (cfg : JObj) (k : String) (dflt : PyVal) : PyVal :=
  match alookup cfg k with
  | some v => .ofJson v
  | none => dflt

/-- The argument extraction of `_sessions.get_session` (lines 67-76):
`host`, `port`, `auth_type`, `auth_token` default to `None`;
`never_timeout` and `use_tls` default to `False`; `session_type` defaults to
`"python"`; the three certificate fields default to `None`. -/
def sessionArgs (cfg : JObj) : SessionParams :=
  { host := cfgGet cfg "host" (.ofJson .jnull)
    port := cfgGet cfg "port" (.ofJson .jnull)
    auth_type := cfgGet cfg "auth_type" (.ofJson .jnull)
    auth_token := cfgGet cfg "auth_token" (.ofJson .jnull)
    never_timeout := cfgGet cfg "never_timeout" (.ofJson (.jbool false))
    session_type := cfgGet cfg "session_type" (.ofJson (.jstr "python"))
    use_tls := cfgGet cfg "use_tls" (.ofJson (.jbool false))
    tls_root_certs := cfgGet cfg "tls_root_certs" (.ofJson .jnull)
    client_cert_chain := cfgGet cfg "client_cert_chain" (.ofJson .jnull)
    client_private_key := cfgGet cfg "client_private_key" (.ofJson .jnull) }

/-- The argument extraction of `__init__._get_session` (lines 170-179):
`auth_type` defaults to `"Anonymous"`, `auth_token` to `""`, `never_timeout`
to `True`; the rest as in `sessionArgs`. -/
def initSessionArgs (cfg : JObj) : SessionParams :=
  { host := cfgGet cfg "host" (.ofJson .jnull)
    port := cfgGet cfg "port" (.ofJson .jnull)
    auth_type := cfgGet cfg "auth_type" (.ofJson (.jstr "Anonymous"))
    auth_token := cfgGet cfg "auth_token" (.ofJson (.jstr ""))
    never_timeout := cfgGet cfg "never_timeout" (.ofJson (.jbool true))
    session_type := cfgGet cfg "session_type" (.ofJson (.jstr "python"))
    use_tls := cfgGet cfg "use_tls" (.ofJson (.jbool false))
    tls_root_certs := cfgGet cfg "tls_root_certs" (.ofJson .jnull)
    client_cert_chain := cfgGet cfg "client_cert_chain" (.ofJson .jnull)
    client_private_key := cfgGet cfg "client_private_key" (.ofJson .jnull) }

/-- A connection handle: the allocation counter value at construction time
identifies the object (two `Session(...)` calls never return the same
object), together with the parameters it was constructed with. -/
structure Session : Type where
  sid : Nat
  params : SessionParams

/-- Result of `session.is_alive()`: normal `True`/`False`, or an exception
carrying a message. -/
inductive ProbeResult : Type where
  | alive : ProbeResult
  | dead : ProbeResult
  | raises : String → ProbeResult

/-- The environment `get_session` interacts with: the filesystem for
certificate files (`none` = unreadable), the liveness probe of a cached
handle, and the outcome of the `Session(...)` constructor (`none` = success,
`some msg` = the constructor raises). -/
structure SessionEnv : Type where
  fs : String → Option (List Nat)
  probe : Nat → ProbeResult
  buildFail : SessionParams → Option String

/-- The mutable module state of `_sessions.py` and `_config.py`: the session
cache, the allocation counter for fresh handles, and the config cache used by
`get_worker_config`. -/
structure SessionState : Type where
  sessionCache : List (String × Session)
  nextId : Nat
  configCache : Option JObj

/-- `worker_name or None` (line 49): an empty string is falsy and collapses
to `None`. -/
def resolveArg : Option String → Option String
  | some s => if s.isEmpty then none else some s
  | none => none

/-- `resolved_worker or "__default__"` (line 50). -/
def cacheKey (worker_name : Option String) : String :=
  match resolveArg worker_name with
  | some s => s
  | none => "__default__"

/-- The four keys redacted before the config is logged (lines 110-117). -/
def isSecretField (k : String) : Bool :=
  k == "auth_token" || k == "client_private_key" || k == "client_cert_chain"
    || k == "tls_root_certs"

/-- `log_cfg = dict(cfg)` with each present secret key overwritten by the
redaction marker (lines 109-117). -/
def redactCfg (cfg : JObj) : JObj :=
  cfg.map (fun kv => if isSecretField kv.1 then (kv.1, .jstr "<redacted>") else kv)

/-- One certificate field (lines 89-106): if the config value is truthy, log
the path, read the file via `_load_bytes` (which logs and re-raises on
failure), and replace the value by the loaded bytes; a falsy value is left
as-is with a "not provided" log line. -/
def loadCert (fs : String → Option (List Nat)) (tag : String) (v : PyVal) :
    Except DhError PyVal × List Event :=
  match v with
  | .ofJson jv =>
    if pyTruthy jv then
      match jv with
      | .jstr path =>
        match fs path with
        | some bs =>
          (.ok (.bytes bs),
           [.log (.loadingCert tag jv), .certRead path, .log (.loadedCert tag)])
        | none =>
          (.error (.certLoad path),
           [.log (.loadingCert tag jv), .certRead path,
            .log (.certLoadError path "unreadable")])
      | _ => (.error (.typeError "certificate path is not a string"),
              [.log (.loadingCert tag jv)])
    else (.ok (.ofJson jv), [.log (.noCert tag)])
  | .bytes bs => (.ok (.bytes bs), [])

/-- Construction and store step of the rebuild path (lines 108-135): log the
redacted config, call the `Session(...)` constructor with the fully resolved
arguments, and on success allocate a fresh handle, store it under the key,
and return it; on constructor failure nothing is stored. -/
def constructStore (env : SessionEnv) (st1 : SessionState) (cfg : JObj)
    (cache_key : String) (pre4 : List Event) (args : SessionParams) :
    Except DhError Session × SessionState × List Event :=
  match env.buildFail args with
  | some msg =>
    (.error (.sessionCreation msg), st1,
     pre4 ++ [.log (.creatingSession (redactCfg cfg) cache_key)])
  | none =>
    (.ok ⟨st1.nextId, args⟩,
     ⟨aupdate st1.sessionCache cache_key ⟨st1.nextId, args⟩, st1.nextId + 1,
      st1.configCache⟩,
     pre4 ++ [.log (.creatingSession (redactCfg cfg) cache_key)]
          ++ [.sessionBuild, .log (.sessionCreated cache_key),
              .log (.sessionCached cache_key)])

/-- Certificate-loading step of the rebuild path (lines 78-106): the three
certificate fields are resolved in source order, any failure propagating with
the state untouched, then construction proceeds with the substituted
arguments. -/
def buildFromConfig (env : SessionEnv) (st1 : SessionState) (cfg : JObj)
    (cache_key : String) (pre1 : List Event) :
    Except DhError Session × SessionState × List Event :=
  match loadCert env.fs "TLS root certs" (sessionArgs cfg).tls_root_certs with
  | (.error e, e1) => (.error e, st1, pre1 ++ e1)
  | (.ok v1, e1) =>
    match loadCert env.fs "client cert chain" (sessionArgs cfg).client_cert_chain with
    | (.error e, e2) => (.error e, st1, pre1 ++ e1 ++ e2)
    | (.ok v2, e2) =>
      match loadCert env.fs "client private key" (sessionArgs cfg).client_private_key with
      | (.error e, e3) => (.error e, st1, pre1 ++ e1 ++ e2 ++ e3)
      | (.ok v3, e3) =>
        constructStore env st1 cfg cache_key (pre1 ++ e1 ++ e2 ++ e3)
          { sessionArgs cfg with tls_root_certs := v1, client_cert_chain := v2,
                                 client_private_key := v3 }

/-- The rebuild path of `get_session` (lines 65-135): fetch the worker config
(threading the config cache), then load certificates, construct, store and
return.  `pre` is the trace accumulated by the probe phase.  Any failure
propagates with the session cache and the allocation counter untouched. -/
def buildPhase (env : SessionEnv) (src : ConfigSource) (st : SessionState)
    (worker_name : Option String) (cache_key : String) (pre : List Event) :
    Except DhError Session × SessionState × List Event :=
  match get_worker_config st.configCache src worker_name with
  | (.error e, cc2, ctr) =>
    (.error e, ⟨st.sessionCache, st.nextId, cc2⟩, pre ++ Event.configFetch :: ctr)
  | (.ok (.jobj cfg), cc2, ctr) =>
    buildFromConfig env ⟨st.sessionCache, st.nextId, cc2⟩ cfg cache_key
      (pre ++ Event.configFetch :: ctr)
  | (.ok _, cc2, ctr) =>
    (.error (.typeError "worker config is not a dictionary"),
     ⟨st.sessionCache, st.nextId, cc2⟩, pre ++ Event.configFetch :: ctr)

/-- `get_session` (`_sessions.py`, lines 29-135).  The whole body runs under
`_SESSION_CACHE_LOCK`, so one call is one atomic transition on the module
state; a concurrent execution is an interleaving of such transitions.
Probe a cached handle for the resolved key: if it reports alive, return it
unchanged; if it reports dead or the probe raises, log and fall through to
the rebuild path, as also when no entry exists. -/
def get_session (env : SessionEnv) (src : ConfigSource) (st : SessionState)
    (worker_name : Option String) :
    Except DhError Session × SessionState × List Event :=
  match alookup st.sessionCache (cacheKey worker_name) with
  | some session =>
    match env.probe session.sid with
    | .alive => (.ok session, st, [.log (.returningCached (resolveArg worker_name))])
    | .dead => buildPhase env src st worker_name (cacheKey worker_name)
        [.log (.cachedNotAlive (resolveArg worker_name))]
    | .raises msg => buildPhase env src st worker_name (cacheKey worker_name)
        [.log (.livenessCheckError (resolveArg worker_name) msg)]
  | none => buildPhase env src st worker_name (cacheKey worker_name) []

/-- Sequential composition of `get_session` calls.  Because the source holds
the single global `_SESSION_CACHE_LOCK` for the entire lookup-probe-build
-store sequence, any concurrent execution of `get_session` calls is
equivalent to a sequential run of the atomic per-call transitions in some
order; this function is that run. -/
def run_calls (env : SessionEnv) (src : ConfigSource) :
    List (Option String) → SessionState →
    List (Except DhError Session) × SessionState × List Event
  | [], st => ([], st, [])
  | nm :: rest, st =>
    ((get_session env src st nm).1
       :: (run_calls env src rest (get_session env src st nm).2.1).1,
     (run_calls env src rest (get_session env src st nm).2.1).2.1,
     (get_session env src st nm).2.2
       ++ (run_calls env src rest (get_session env src st nm).2.1).2.2)

/-- Number of connection handles built in a trace. -/
def isBuildEvent : Event → Bool
  | .sessionBuild => true
  | _ => false

def countBuilds (tr : List Event) : Nat := (tr.filter isBuildEvent).length

/-- The log projection of a trace (what `logging` emitted). -/
def logsOf (tr : List Event) : List LogMsg :=
  tr.filterMap (fun e => match e with | .log m => some m | _ => none)

/-- Every cached handle was produced by an earlier allocation. -/
def wfState (st : SessionState) : Prop :=
  ∀ kv ∈ st.sessionCache, (kv.2 : Session).sid < st.nextId

/-! ## Helper lemmas -/

theorem alookup_mem {α : Type} {l : List (String × α)} {k : String} {v : α}
    (h : alookup l k = some v) : (k, v) ∈ l := by
  induction l with
  | nil => simp [alookup] at h
  | cons kv rest ih =>
    obtain ⟨k0, v0⟩ := kv
    by_cases hk : k0 = k
    · subst hk
      simp [alookup] at h
      simp [h]
    · simp only [alookup, if_neg hk] at h
      exact List.mem_cons_of_mem _ (ih h)

theorem validateTopLevel_error {config : JObj} {e : DhError}
    (h : validateTopLevel config = .error e) : ∃ m, e = .configValidation m := by
  unfold validateTopLevel at h
  split at h
  · exact ⟨_, (Except.error.inj h).symm⟩
  · exact Except.noConfusion h

theorem validateWorkersShape_error {config : JObj} {e : DhError}
    (h : validateWorkersShape config = .error e) : ∃ m, e = .configValidation m := by
  unfold validateWorkersShape at h
  split at h
  · split at h
    · exact ⟨_, (Except.error.inj h).symm⟩
    · exact Except.noConfusion h
  · exact ⟨_, (Except.error.inj h).symm⟩

theorem validateDefaultWorker_error_hashable {config ws : JObj} {e : DhError}
    (hh : ∀ v, alookup config "default_worker" = some v → pyHashable v = true)
    (h : validateDefaultWorker config ws = .error e) : ∃ m, e = .configValidation m := by
  unfold validateDefaultWorker at h
  split at h
  · exact Except.noConfusion h
  · exact Except.noConfusion h
  · split at h
    · exact Except.noConfusion h
    · exact ⟨_, (Except.error.inj h).symm⟩
  · exact ⟨_, (Except.error.inj h).symm⟩
  · exact ⟨_, (Except.error.inj h).symm⟩
  · rename_i xs heq
    exact absurd (hh _ heq) (by simp [pyHashable])
  · rename_i fs heq
    exact absurd (hh _ heq) (by simp [pyHashable])

theorem validateWorkerEntry_error {wname : String} {v : JValue} {e : DhError}
    (h : validateWorkerEntry wname v = .error e) : ∃ m, e = .configValidation m := by
  unfold validateWorkerEntry at h
  split at h
  · split at h
    · exact ⟨_, (Except.error.inj h).symm⟩
    · split at h
      · exact ⟨_, (Except.error.inj h).symm⟩
      · exact Except.noConfusion h
  · exact ⟨_, (Except.error.inj h).symm⟩

theorem validateWorkers_error {ws : JObj} {e : DhError}
    (h : validateWorkers ws = .error e) : ∃ m, e = .configValidation m := by
  induction ws with
  | nil => exact absurd h (by simp [validateWorkers])
  | cons kv rest ih =>
    obtain ⟨k, v⟩ := kv
    unfold validateWorkers at h
    split at h
    · rename_i e1 h1
      exact (Except.error.inj h) ▸ validateWorkerEntry_error h1
    · exact ih h

theorem validateConfigObj_error {config : JObj} {e : DhError}
    (hh : ∀ v, alookup config "default_worker" = some v → pyHashable v = true)
    (h : validateConfigObj config = .error e) : ∃ m, e = .configValidation m := by
  unfold validateConfigObj at h
  split at h
  · rename_i e1 h1
    exact (Except.error.inj h) ▸ validateTopLevel_error h1
  · split at h
    · rename_i e2 h2
      exact (Except.error.inj h) ▸ validateWorkersShape_error h2
    · split at h
      · rename_i e3 h3
        exact (Except.error.inj h) ▸ validateDefaultWorker_error_hashable hh h3
      · split at h
        · rename_i e4 h4
          exact (Except.error.inj h) ▸ validateWorkers_error h4
        · exact Except.noConfusion h

theorem validateConfig_error {config : JObj} {e : DhError}
    (hh : ∀ v, alookup config "default_worker" = some v → pyHashable v = true)
    (h : validateConfig (.jobj config) = .error e) : ∃ m, e = .configValidation m :=
  validateConfigObj_error hh h

/-- Decomposition of a successful validation into its phases. -/
theorem validateConfig_ok {config : JObj} {c : JObj}
    (h : validateConfig (.jobj config) = .ok c) :
    c = config ∧ validateTopLevel config = .ok () ∧
    ∃ ws, validateWorkersShape config = .ok ws ∧
      validateDefaultWorker config ws = .ok () ∧ validateWorkers ws = .ok () := by
  have h0 : validateConfigObj config = .ok c := h
  unfold validateConfigObj at h0
  cases h1 : validateTopLevel config with
  | error e1 => rw [h1] at h0; exact Except.noConfusion h0
  | ok u1 =>
    rw [h1] at h0
    replace h0 : (match validateWorkersShape config with
      | .error e => (.error e : Except DhError JObj)
      | .ok ws =>
        match validateDefaultWorker config ws with
        | .error e => .error e
        | .ok _ =>
          match validateWorkers ws with
          | .error e => .error e
          | .ok _ => .ok config) = .ok c := h0
    cases h2 : validateWorkersShape config with
    | error e2 => rw [h2] at h0; exact Except.noConfusion h0
    | ok ws =>
      rw [h2] at h0
      replace h0 : (match validateDefaultWorker config ws with
        | .error e => (.error e : Except DhError JObj)
        | .ok _ =>
          match validateWorkers ws with
          | .error e => .error e
          | .ok _ => .ok config) = .ok c := h0
      cases h3 : validateDefaultWorker config ws with
      | error e3 => rw [h3] at h0; exact Except.noConfusion h0
      | ok u3 =>
        rw [h3] at h0
        replace h0 : (match validateWorkers ws with
          | .error e => (.error e : Except DhError JObj)
          | .ok _ => .ok config) = .ok c := h0
        cases h4 : validateWorkers ws with
        | error e4 => rw [h4] at h0; exact Except.noConfusion h0
        | ok u4 =>
          rw [h4] at h0
          refine ⟨(Except.ok.inj h0).symm, ?_, ws, rfl, ?_, ?_⟩
          · cases u1; rfl
          · cases u3; exact h3
          · cases u4; exact h4

theorem validateWorkers_ok {ws : JObj} (h : validateWorkers ws = .ok ()) :
    ∀ kv ∈ ws, validateWorkerEntry kv.1 kv.2 = .ok () := by
  induction ws with
  | nil => intro kv hkv; exact absurd hkv (List.not_mem_nil kv)
  | cons kv0 rest ih =>
    obtain ⟨k, v⟩ := kv0
    unfold validateWorkers at h
    split at h
    · exact Except.noConfusion h
    · rename_i u1 h1
      intro kv hkv
      rcases List.mem_cons.mp hkv with heq | hmem
      · subst heq; cases u1; exact h1
      · exact ih h kv hmem

theorem validateWorkerEntry_ok {wname : String} {wcfg : JObj}
    (h : validateWorkerEntry wname (.jobj wcfg) = .ok ()) :
    (∀ kv ∈ wcfg, allowedTypeOf (kv : String × JValue).1 ≠ none) ∧
    (∀ ft ∈ _ALLOWED_WORKER_FIELDS, ∀ v,
      alookup wcfg (ft : String × FieldType).1 = some v → isinstance ft.2 v = true) := by
  rw [show validateWorkerEntry wname (.jobj wcfg)
      = (match wcfg.find? (fun kv => (allowedTypeOf kv.1).isNone) with
         | some kv =>
           Except.error (.configValidation ("Unknown field in worker config: " ++ kv.1))
         | none =>
           match _ALLOWED_WORKER_FIELDS.find? (fun ft =>
               match alookup wcfg ft.1 with
               | some value => !isinstance ft.2 value
               | none => false) with
           | some ft => Except.error (.configValidation ("Field has wrong type: " ++ ft.1))
           | none => Except.ok ()) from rfl] at h
  split at h
  · exact Except.noConfusion h
  · split at h
    · exact Except.noConfusion h
    · rename_i hf1 x hf2
      constructor
      · intro kv hkv
        have := List.find?_eq_none.mp hf1 kv hkv
        simpa using this
      · intro ft hft v hv
        have := List.find?_eq_none.mp hf2 ft hft
        rw [hv] at this
        simpa using this

/-- `specTypeOk` implies `isinstance`; the two differ exactly at boolean
values in integer-typed fields. -/
theorem isinstance_false_of_specTypeOk_false {ft : FieldType} {v : JValue}
    (h1 : specTypeOk ft v = false) (h2 : ¬(ft = .tInt ∧ ∃ b, v = .jbool b)) :
    isinstance ft v = false := by
  cases ft <;> cases v <;> simp_all [specTypeOk, isinstance]

theorem validateConfig_not_ok {config : JObj}
    (hh : ∀ v, alookup config "default_worker" = some v → pyHashable v = true)
    (h : ∀ c, validateConfig (.jobj config) ≠ .ok c) :
    ∃ m, validateConfig (.jobj config) = .error (.configValidation m) := by
  cases hv : validateConfig (.jobj config) with
  | ok c => exact absurd hv (h c)
  | error e =>
    obtain ⟨m, hm⟩ := validateConfig_error hh hv
    exact ⟨m, by rw [hm]⟩

/-- A config with an unknown top-level key makes the key allow-list loop
raise, before the workers or `default_worker` checks run. -/
theorem validateTopLevel_error_of_key {config : JObj} {k : String} {v : JValue}
    (hmem : (k, v) ∈ config) (hk1 : k ≠ "workers") (hk2 : k ≠ "default_worker") :
    ∃ m, validateTopLevel config = .error (.configValidation m) := by
  unfold validateTopLevel
  cases hf : config.find? (fun kv => !(kv.1 == "workers" || kv.1 == "default_worker")) with
  | some kv => exact ⟨_, rfl⟩
  | none =>
    exfalso
    have hp := List.find?_eq_none.mp hf (k, v) hmem
    rcases or_iff_not_imp_left.mpr (by simpa using hp) with h | h
    · exact hk1 h
    · exact hk2 h

/-- An error raised by the top-level key loop propagates: no later phase of
validation runs. -/
theorem validateConfig_err_top {config : JObj} {e : DhError}
    (h : validateTopLevel config = .error e) :
    validateConfig (.jobj config) = .error e := by
  show validateConfigObj config = .error e
  unfold validateConfigObj
  rw [h]

/-- An error raised by the workers-shape check propagates: in particular the
`default_worker` membership test has not yet run. -/
theorem validateConfig_err_shape {config : JObj} {e : DhError}
    (h1 : validateTopLevel config = .ok ())
    (h2 : validateWorkersShape config = .error e) :
    validateConfig (.jobj config) = .error e := by
  show validateConfigObj config = .error e
  unfold validateConfigObj
  rw [h1]
  show (match validateWorkersShape config with
    | .error e => (.error e : Except DhError JObj)
    | .ok ws =>
      match validateDefaultWorker config ws with
      | .error e => .error e
      | .ok _ =>
        match validateWorkers ws with
        | .error e => .error e
        | .ok _ => .ok config) = .error e
  rw [h2]

theorem validateTopLevel_ok_mem {config : JObj} (h : validateTopLevel config = .ok ())
    {k : String} {v : JValue} (hmem : (k, v) ∈ config) :
    k = "workers" ∨ k = "default_worker" := by
  unfold validateTopLevel at h
  cases hf : config.find? (fun kv => !(kv.1 == "workers" || kv.1 == "default_worker")) with
  | some kv => rw [hf] at h; exact Except.noConfusion h
  | none =>
    have := List.find?_eq_none.mp hf (k, v) hmem
    exact or_iff_not_imp_left.mpr (by simpa using this)

theorem validateWorkersShape_ok_lookup {config : JObj} {ws : JObj}
    (h : validateWorkersShape config = .ok ws) :
    alookup config "workers" = some (.jobj ws) ∧ ws ≠ [] := by
  unfold validateWorkersShape at h
  split at h
  · rename_i ws0 hl
    split at h
    · exact Except.noConfusion h
    · rename_i hne
      have hw : ws0 = ws := Except.ok.inj h
      subst hw
      refine ⟨hl, ?_⟩
      simpa [List.isEmpty_iff] using hne
  · exact Except.noConfusion h

theorem validateWorkerEntry_ok_isObj {w : String} {v : JValue}
    (h : validateWorkerEntry w v = .ok ()) : ∃ wcfg, v = .jobj wcfg := by
  cases v with
  | jobj wcfg => exact ⟨wcfg, rfl⟩
  | jnull => exact Except.noConfusion h
  | jbool b => exact Except.noConfusion h
  | jint n => exact Except.noConfusion h
  | jstr s => exact Except.noConfusion h
  | jarr xs => exact Except.noConfusion h

/-! ## Claim C4 -/

/-- `{"workers": {"a": {}}}`. -/
def minimalDoc : JValue := .jobj [("workers", .jobj [("a", .jobj [])])]

/-- `{"workers": {"a": {"port": true}}}` — the declared type of `port` is
integer, the value is a boolean. -/
def boolPortDoc : JValue :=
  .jobj [("workers", .jobj [("a", .jobj [("port", .jbool true)])])]

/-- C4, counterexample.  The claim says validation fails whenever a field
value has the wrong declared type.  `port` is declared as an integer and the
boolean `true` is not an integer value, yet validation of
`{"workers": {"a": {"port": true}}}` succeeds, because the host language's
`isinstance(True, int)` is true (`bool` is a subclass of `int`). -/
theorem validateConfig_accepts_boolean_port :
    validateConfig boolPortDoc = .ok [("workers", .jobj [("a", .jobj [("port", .jbool true)])])]
    ∧ allowedTypeOf "port" = some .tInt
    ∧ specTypeOk .tInt (.jbool true) = false
    ∧ isinstance .tInt (.jbool true) = true :=
  ⟨rfl, rfl, rfl, rfl⟩

/-- C4 (amended): `load()` fails with a `ConfigValidationError` whenever the
parsed document has an unknown top-level key, or an empty or missing
`workers` object; and — provided `default_worker`, if present, is a hashable
value (not a JSON array or object) — whenever a worker entry has a field
outside the ten-field allow-list, a field value of the wrong declared type
other than a boolean in an integer-typed field (booleans pass the host
language's integer check), or a non-object worker entry; `load()` succeeds
on the minimal config `{"workers": {"a": {}}}`.  The second-to-last conjunct
relates `_load_config` to `validateConfig`: with a readable, parseable
source the result of `load()` is exactly the validation result of the
parsed document.  The last conjunct records why the hashability proviso is
needed: an unhashable `default_worker` makes the membership test itself
raise the host language's `TypeError`, before any worker entry is checked,
so `{"workers": {"a": {"host": 5}}, "default_worker": []}` fails with a
`TypeError` rather than a `ConfigValidationError`. -/
theorem load_validation_allowlist :
    (∀ (config : JObj) (k : String) (v : JValue), (k, v) ∈ config →
      k ≠ "workers" → k ≠ "default_worker" →
      ∃ m, validateConfig (.jobj config) = .error (.configValidation m)) ∧
    (∀ (config ws wcfg : JObj) (w f : String) (v : JValue),
      alookup config "workers" = some (.jobj ws) →
      alookup ws w = some (.jobj wcfg) →
      alookup wcfg f = some v → allowedTypeOf f = none →
      (∀ dv, alookup config "default_worker" = some dv → pyHashable dv = true) →
      ∃ m, validateConfig (.jobj config) = .error (.configValidation m)) ∧
    (∀ (config ws wcfg : JObj) (w f : String) (ft : FieldType) (v : JValue),
      alookup config "workers" = some (.jobj ws) →
      alookup ws w = some (.jobj wcfg) →
      alookup wcfg f = some v → allowedTypeOf f = some ft →
      specTypeOk ft v = false → ¬(ft = .tInt ∧ ∃ b, v = .jbool b) →
      (∀ dv, alookup config "default_worker" = some dv → pyHashable dv = true) →
      ∃ m, validateConfig (.jobj config) = .error (.configValidation m)) ∧
    (∀ config : JObj,
      alookup config "workers" = none ∨ alookup config "workers" = some (.jobj []) →
      ∃ m, validateConfig (.jobj config) = .error (.configValidation m)) ∧
    (∀ (config ws : JObj) (w : String) (v : JValue),
      alookup config "workers" = some (.jobj ws) → alookup ws w = some v →
      (∀ fs : JObj, v ≠ .jobj fs) →
      (∀ dv, alookup config "default_worker" = some dv → pyHashable dv = true) →
      ∃ m, validateConfig (.jobj config) = .error (.configValidation m)) ∧
    validateConfig minimalDoc = .ok [("workers", .jobj [("a", .jobj [])])] ∧
    (∀ (src : ConfigSource) (p : String) (doc : JValue),
      src.envConfigPath = some p → p.isEmpty = false → src.readJson p = some doc →
      (_load_config none src).1 = validateConfig doc) ∧
    validateConfig (.jobj [("workers", .jobj [("a", .jobj [("host", .jint 5)])]),
        ("default_worker", .jarr [])])
      = .error (.typeError "unhashable type: list") := by
  refine ⟨?_, ?_, ?_, ?_, ?_, rfl, ?_, rfl⟩
  · intro config k v hmem hk1 hk2
    obtain ⟨m, hm⟩ := validateTopLevel_error_of_key hmem hk1 hk2
    exact ⟨m, validateConfig_err_top hm⟩
  · intro config ws wcfg w f v hws hw hf hunknown hh
    apply validateConfig_not_ok hh
    intro c hok
    obtain ⟨_, _, ws2, hshape, _, hwork⟩ := validateConfig_ok hok
    obtain ⟨hl, _⟩ := validateWorkersShape_ok_lookup hshape
    rw [hws] at hl
    have hws2 : ws = ws2 := by
      have := Option.some.inj hl
      exact JValue.jobj.inj this
    subst hws2
    have hentry := validateWorkers_ok hwork (w, .jobj wcfg) (alookup_mem hw)
    have := (validateWorkerEntry_ok hentry).1 (f, v) (alookup_mem hf)
    exact this hunknown
  · intro config ws wcfg w f ft v hws hw hf hft hspec hcarve hh
    apply validateConfig_not_ok hh
    intro c hok
    obtain ⟨_, _, ws2, hshape, _, hwork⟩ := validateConfig_ok hok
    obtain ⟨hl, _⟩ := validateWorkersShape_ok_lookup hshape
    rw [hws] at hl
    have hws2 : ws = ws2 := JValue.jobj.inj (Option.some.inj hl)
    subst hws2
    have hentry := validateWorkers_ok hwork (w, .jobj wcfg) (alookup_mem hw)
    have hinst := (validateWorkerEntry_ok hentry).2 (f, ft) (alookup_mem hft) v hf
    rw [isinstance_false_of_specTypeOk_false hspec hcarve] at hinst
    exact Bool.noConfusion hinst
  · intro config hcase
    cases h1 : validateTopLevel config with
    | error e1 =>
      obtain ⟨m, hm⟩ := validateTopLevel_error h1
      rw [hm] at h1
      exact ⟨m, validateConfig_err_top h1⟩
    | ok u1 =>
      cases u1
      have h2 : validateWorkersShape config
          = .error (.configValidation "must contain a non-empty workers dictionary") := by
        unfold validateWorkersShape
        rcases hcase with hn | he
        · rw [hn]
        · rw [he]
          rfl
      exact ⟨_, validateConfig_err_shape h1 h2⟩
  · intro config ws w v hws hw hnotobj hh
    apply validateConfig_not_ok hh
    intro c hok
    obtain ⟨_, _, ws2, hshape, _, hwork⟩ := validateConfig_ok hok
    obtain ⟨hl, _⟩ := validateWorkersShape_ok_lookup hshape
    rw [hws] at hl
    have hws2 : ws = ws2 := JValue.jobj.inj (Option.some.inj hl)
    subst hws2
    have hentry := validateWorkers_ok hwork (w, v) (alookup_mem hw)
    obtain ⟨wcfg, hv⟩ := validateWorkerEntry_ok_isObj hentry
    exact hnotobj wcfg hv
  · intro src p doc hp hpe hread
    simp only [_load_config, hp, hread]
    rw [if_neg (by simp [hpe])]
    cases hv : validateConfig doc with
    | error e => rfl
    | ok config => rfl

/-- C4 witness: the wrong-type conjunct applied to
`{"workers": {"a": {"host": 5}}}` (`host` is declared a string, `5` is an
integer; the document has no `default_worker` key, so the hashability
proviso holds vacuously). -/
theorem load_validation_allowlist_witness :
    ∃ m, validateConfig (.jobj [("workers", .jobj [("a", .jobj [("host", .jint 5)])])])
      = .error (.configValidation m) :=
  load_validation_allowlist.2.2.1
    [("workers", .jobj [("a", .jobj [("host", .jint 5)])])]
    [("a", .jobj [("host", .jint 5)])] [("host", .jint 5)] "a" "host" .tStr (.jint 5)
    rfl rfl rfl rfl rfl (fun hc => FieldType.noConfusion hc.1)
    (fun dv hdv => by simp [alookup] at hdv)

/-! ## Claim C5 -/

/-- C5: a successful `load()` primes the cache with exactly the returned
object, and from then on every `load()` call returns that identical object,
touching neither the environment variable nor the file, whatever the source
now contains (no `readConfigSource` event, empty trace). -/
theorem load_config_ok_caches {src : ConfigSource} {cache : Option JObj}
    {c : JObj} {cache2 : Option JObj} {tr : List Event}
    (h : _load_config cache src = (.ok c, cache2, tr)) : cache2 = some c := by
  unfold _load_config at h
  cases cache with
  | some c0 =>
    simp only [Prod.mk.injEq] at h
    obtain ⟨ha, hb, -⟩ := h
    exact hb.symm.trans (congrArg some (Except.ok.inj ha))
  | none =>
    cases hp : src.envConfigPath with
    | none => rw [hp] at h; exact Except.noConfusion (congrArg Prod.fst h)
    | some p =>
      rw [hp] at h
      replace h : (if p.isEmpty = true
          then ((.error (.configSource "DH_MCP_CONFIG_FILE must be set") : Except DhError JObj),
                (none : Option JObj), ([] : List Event))
          else match src.readJson p with
          | none => (.error (.configSource ("Failed to load config file: " ++ p)), none,
                     [Event.readConfigSource p])
          | some doc =>
            match validateConfig doc with
            | .error e => (.error e, none, [Event.readConfigSource p])
            | .ok config => (.ok config, some config, [Event.readConfigSource p]))
          = (.ok c, cache2, tr) := h
      by_cases hpe : p.isEmpty = true
      · rw [if_pos hpe] at h
        exact Except.noConfusion (congrArg Prod.fst h)
      · rw [if_neg hpe] at h
        cases hr : src.readJson p with
        | none => rw [hr] at h; exact Except.noConfusion (congrArg Prod.fst h)
        | some doc =>
          rw [hr] at h
          replace h : (match validateConfig doc with
            | .error e => ((.error e : Except DhError JObj), (none : Option JObj),
                           [Event.readConfigSource p])
            | .ok config => (.ok config, some config, [Event.readConfigSource p]))
            = (.ok c, cache2, tr) := h
          cases hv : validateConfig doc with
          | error e => rw [hv] at h; exact Except.noConfusion (congrArg Prod.fst h)
          | ok config =>
            rw [hv] at h
            simp only [Prod.mk.injEq] at h
            obtain ⟨ha, hb, -⟩ := h
            exact hb.symm.trans (congrArg some (Except.ok.inj ha))

theorem load_config_memoized (src1 : ConfigSource) (c : JObj) (cache1 : Option JObj)
    (tr : List Event)
    (h : _load_config none src1 = (.ok c, cache1, tr)) :
    cache1 = some c ∧
    ∀ src2 : ConfigSource, _load_config (some c) src2 = (.ok c, some c, []) := by
  constructor
  · exact load_config_ok_caches h
  · intro src2
    rfl

/-- the registry parsed from `{"workers": {"a": {}}}` -/
def minimalCfg : JObj := [("workers", .jobj [("a", .jobj [])])]

def c5src : ConfigSource :=
  { envConfigPath := some "deephaven_workers.json"
    readJson := fun _ => some minimalDoc }

theorem load_config_memoized_witness :
    (some minimalCfg : Option JObj) = some minimalCfg ∧
    ∀ src2 : ConfigSource,
      _load_config (some minimalCfg) src2 = (.ok minimalCfg, some minimalCfg, []) :=
  load_config_memoized c5src minimalCfg (some minimalCfg)
    [.readConfigSource "deephaven_workers.json"] rfl

/-! ## Claim C6 -/

/-- the document `{"workers": {"": {}}, "default_worker": ""}` -/
def emptyNameCfg : JObj :=
  [("workers", .jobj [("", .jobj [])]), ("default_worker", .jstr "")]

/-- C6, counterexample.  In this validated registry `default_worker` IS set
(to `""`, a genuine key of `workers`), yet `getWorkerConfig(None)` does not
return that worker's config: resolution tests truthiness, the empty string
is falsy, and the call fails with a `WorkerResolutionError`. -/
theorem get_worker_config_empty_default_fails :
    validateConfig (.jobj emptyNameCfg) = .ok emptyNameCfg ∧
    alookup emptyNameCfg "default_worker" = some (.jstr "") ∧
    alookup [(("" : String), JValue.jobj [])] "" = some (.jobj []) ∧
    get_worker_config_pure emptyNameCfg none
      = .error (.workerResolution "No worker name specified") :=
  ⟨rfl, rfl, rfl, rfl⟩

/-- C6 (amended): `getWorkerConfig(None)` returns the config of the worker
named by `default_worker` when `default_worker` is set to a non-empty name;
it fails with `WorkerResolutionError` when neither a truthy explicit name nor
a truthy default is available (the empty string counting as absent), and
when the resolved non-empty name is not a key of `workers`; any such call
leaves the cached Registry exactly as it was. -/
theorem get_worker_config_resolution :
    (∀ (config ws : JObj) (d : String) (wv : JValue),
      alookup config "workers" = some (.jobj ws) →
      alookup config "default_worker" = some (.jstr d) → d.isEmpty = false →
      alookup ws d = some wv →
      get_worker_config_pure config none = .ok wv) ∧
    (∀ (config ws : JObj) (nm : Option String),
      alookup config "workers" = some (.jobj ws) →
      (nm = none ∨ nm = some "") →
      (∀ v, alookup config "default_worker" = some v → pyTruthy v = false) →
      ∃ m, get_worker_config_pure config nm = .error (.workerResolution m)) ∧
    (∀ (config ws : JObj) (s : String),
      alookup config "workers" = some (.jobj ws) → ws.isEmpty = false →
      s.isEmpty = false → alookup ws s = none →
      get_worker_config_pure config (some s)
        = .error (.workerResolution ("Worker not found in config: " ++ s))) ∧
    (∀ (config ws : JObj) (d : String),
      alookup config "workers" = some (.jobj ws) → ws.isEmpty = false →
      alookup config "default_worker" = some (.jstr d) → d.isEmpty = false →
      alookup ws d = none →
      get_worker_config_pure config none
        = .error (.workerResolution ("Worker not found in config: " ++ d))) ∧
    (∀ (c : JObj) (src : ConfigSource) (nm : Option String),
      (get_worker_config (some c) src nm).2.1 = some c) := by
  refine ⟨?_, ?_, ?_, ?_, ?_⟩
  · intro config ws d wv hws hd hde hwv
    have hne : ws.isEmpty = false := by
      cases ws with
      | nil => exact absurd hwv (by simp [alookup])
      | cons kv rest => rfl
    simp [get_worker_config_pure, gwcp_core, hws, hne, hd, hde, hwv, pyTruthy, argToJVal]
  · intro config ws nm hws hnm hdef
    have hnm2 : get_worker_config_pure config nm = get_worker_config_pure config none := by
      rcases hnm with h | h <;> subst h <;> rfl
    rw [hnm2]
    by_cases hne : ws.isEmpty = true
    · exact ⟨"No workers defined in Deephaven config file",
        by simp [get_worker_config_pure, gwcp_core, hws, hne]⟩
    · cases hd : alookup config "default_worker" with
      | none =>
        exact ⟨"No worker name specified",
          by simp [get_worker_config_pure, gwcp_core, hws, hne, hd, pyTruthy, argToJVal]⟩
      | some v =>
        have hv := hdef v hd
        refine ⟨"No worker name specified", ?_⟩
        cases v with
        | jnull => simp [get_worker_config_pure, gwcp_core, hws, hne, hd, pyTruthy, argToJVal]
        | jbool b =>
          have hb : b = false := by simpa [pyTruthy] using hv
          subst hb
          simp [get_worker_config_pure, gwcp_core, hws, hne, hd, pyTruthy, argToJVal]
        | jint n =>
          have hn : n = 0 := by simpa [pyTruthy] using hv
          subst hn
          simp [get_worker_config_pure, gwcp_core, hws, hne, hd, pyTruthy, argToJVal]
        | jstr s =>
          have hs : s.isEmpty = true := by simpa [pyTruthy] using hv
          simp [get_worker_config_pure, gwcp_core, hws, hne, hd, pyTruthy, argToJVal, hs]
        | jarr xs =>
          have hx : xs = [] := by simpa [pyTruthy] using hv
          subst hx
          simp [get_worker_config_pure, gwcp_core, hws, hne, hd, pyTruthy, argToJVal]
        | jobj fs =>
          have hx : fs = [] := by simpa [pyTruthy] using hv
          subst hx
          simp [get_worker_config_pure, gwcp_core, hws, hne, hd, pyTruthy, argToJVal]
  · intro config ws s hws hne hse hnone
    simp [get_worker_config_pure, gwcp_core, hws, hne, hse, hnone, pyTruthy, argToJVal]
  · intro config ws d hws hne hd hde hnone
    simp [get_worker_config_pure, gwcp_core, hws, hne, hd, hde, hnone, pyTruthy, argToJVal]
  · intro c src nm
    rfl

/-- C6 witness: the default-resolution conjunct applied to the registry
`{"workers": {"w1": {"host": "h"}}, "default_worker": "w1"}`. -/
theorem get_worker_config_resolution_witness :
    get_worker_config_pure
      [("workers", .jobj [("w1", .jobj [("host", .jstr "h")])]),
       ("default_worker", .jstr "w1")] none
    = .ok (.jobj [("host", .jstr "h")]) :=
  get_worker_config_resolution.1
    [("workers", .jobj [("w1", .jobj [("host", .jstr "h")])]),
     ("default_worker", .jstr "w1")]
    [("w1", .jobj [("host", .jstr "h")])] "w1" (.jobj [("host", .jstr "h")])
    rfl rfl rfl rfl

/-! ## Claim C10 -/

/-- C10: passing `""` as the worker name behaves identically to passing no
name at all, for `get_session`, for `get_worker_config`, and for the cache
key, which is the `"__default__"` sentinel in both cases — name resolution
tests truthiness, and the empty string is falsy. -/
theorem empty_name_falls_back_to_default :
    (∀ (env : SessionEnv) (src : ConfigSource) (st : SessionState),
      get_session env src st (some "") = get_session env src st none) ∧
    (∀ config : JObj,
      get_worker_config_pure config (some "") = get_worker_config_pure config none) ∧
    (∀ (cache : Option JObj) (src : ConfigSource),
      get_worker_config cache src (some "") = get_worker_config cache src none) ∧
    cacheKey (some "") = "__default__" ∧ cacheKey none = "__default__" :=
  ⟨fun _ _ _ => rfl, fun _ => rfl, fun _ _ => rfl, rfl, rfl⟩

/-! ## Session-layer lemmas -/

theorem alookup_aupdate_self {α : Type} (l : List (String × α)) (k : String) (v : α) :
    alookup (aupdate l k v) k = some v := by
  induction l with
  | nil => simp [aupdate, alookup]
  | cons kv rest ih =>
    obtain ⟨k0, v0⟩ := kv
    by_cases hk : k0 = k
    · subst hk
      simp [aupdate, alookup]
    · simp [aupdate, alookup, hk, ih]

theorem countBuilds_append (a b : List Event) :
    countBuilds (a ++ b) = countBuilds a + countBuilds b := by
  simp [countBuilds, List.filter_append]

theorem loadCert_no_builds {fs : String → Option (List Nat)} {tag : String}
    {v : PyVal} {r : Except DhError PyVal} {ev : List Event}
    (h : loadCert fs tag v = (r, ev)) : countBuilds ev = 0 := by
  unfold loadCert at h
  repeat' split at h
  all_goals (injection h with h1 h2; subst h2; rfl)

theorem load_config_no_builds {cache : Option JObj} {src : ConfigSource}
    {r : Except DhError JObj} {c2 : Option JObj} {tr : List Event}
    (h : _load_config cache src = (r, c2, tr)) : countBuilds tr = 0 := by
  unfold _load_config at h
  repeat' split at h
  all_goals (injection h with h1 h2; injection h2 with h2a h2b; subst h2b; rfl)

theorem get_worker_config_no_builds {cache : Option JObj} {src : ConfigSource}
    {nm : Option String} {r : Except DhError JValue} {c2 : Option JObj} {tr : List Event}
    (h : get_worker_config cache src nm = (r, c2, tr)) : countBuilds tr = 0 := by
  unfold get_worker_config at h
  split at h
  · rename_i e cc tr0 hl
    injection h with h1 h2
    injection h2 with h2a h2b
    subst h2b
    exact load_config_no_builds hl
  · rename_i config cc tr0 hl
    injection h with h1 h2
    injection h2 with h2a h2b
    subst h2b
    exact load_config_no_builds hl

theorem constructStore_error_state {env : SessionEnv} {st1 : SessionState} {cfg : JObj}
    {ck : String} {pre4 : List Event} {args : SessionParams}
    {e : DhError} {st2 : SessionState} {tr : List Event}
    (h : constructStore env st1 cfg ck pre4 args = (.error e, st2, tr)) : st2 = st1 := by
  unfold constructStore at h
  split at h
  · injection h with h1 h2
    injection h2 with h2a h2b
    exact h2a.symm
  · exact Except.noConfusion (congrArg Prod.fst h)

theorem constructStore_ok {env : SessionEnv} {st1 : SessionState} {cfg : JObj}
    {ck : String} {pre4 : List Event} {args : SessionParams}
    {s : Session} {st2 : SessionState} {tr : List Event}
    (h : constructStore env st1 cfg ck pre4 args = (.ok s, st2, tr)) :
    s = ⟨st1.nextId, args⟩ ∧
    st2 = ⟨aupdate st1.sessionCache ck s, st1.nextId + 1, st1.configCache⟩ ∧
    countBuilds tr = countBuilds pre4 + 1 := by
  unfold constructStore at h
  split at h
  · exact Except.noConfusion (congrArg Prod.fst h)
  · injection h with h1 h2
    injection h2 with h2a h2b
    have hs : s = (⟨st1.nextId, args⟩ : Session) := (Except.ok.inj h1).symm
    refine ⟨hs, ?_, ?_⟩
    · rw [hs, ← h2a]
    · rw [← h2b]
      simp [countBuilds_append, countBuilds, isBuildEvent]

theorem buildFromConfig_error_state {env : SessionEnv} {st1 : SessionState} {cfg : JObj}
    {ck : String} {pre1 : List Event} {e : DhError} {st2 : SessionState} {tr : List Event}
    (h : buildFromConfig env st1 cfg ck pre1 = (.error e, st2, tr)) : st2 = st1 := by
  unfold buildFromConfig at h
  split at h
  · injection h with h1 h2; injection h2 with h2a h2b; exact h2a.symm
  · split at h
    · injection h with h1 h2; injection h2 with h2a h2b; exact h2a.symm
    · split at h
      · injection h with h1 h2; injection h2 with h2a h2b; exact h2a.symm
      · exact constructStore_error_state h

theorem buildFromConfig_ok {env : SessionEnv} {st1 : SessionState} {cfg : JObj}
    {ck : String} {pre1 : List Event} {s : Session} {st2 : SessionState} {tr : List Event}
    (h : buildFromConfig env st1 cfg ck pre1 = (.ok s, st2, tr)) :
    s.sid = st1.nextId ∧
    st2.sessionCache = aupdate st1.sessionCache ck s ∧
    st2.nextId = st1.nextId + 1 ∧
    countBuilds tr = countBuilds pre1 + 1 := by
  unfold buildFromConfig at h
  split at h
  · exact Except.noConfusion (congrArg Prod.fst h)
  · split at h
    · exact Except.noConfusion (congrArg Prod.fst h)
    · split at h
      · exact Except.noConfusion (congrArg Prod.fst h)
      · rename_i x1 v1 e1 h1 x2 v2 e2 h2 x3 v3 e3 h3
        obtain ⟨hs, hst, hcount⟩ := constructStore_ok h
        refine ⟨by rw [hs], by rw [hst], by rw [hst], ?_⟩
        rw [hcount]
        have c1 := loadCert_no_builds h1
        have c2 := loadCert_no_builds h2
        have c3 := loadCert_no_builds h3
        simp [countBuilds_append, c1, c2, c3]

theorem buildPhase_error_state {env : SessionEnv} {src : ConfigSource}
    {st : SessionState} {nm : Option String} {ck : String} {pre : List Event}
    {e : DhError} {st2 : SessionState} {tr : List Event}
    (h : buildPhase env src st nm ck pre = (.error e, st2, tr)) :
    st2.sessionCache = st.sessionCache ∧ st2.nextId = st.nextId := by
  unfold buildPhase at h
  split at h
  · injection h with h1 h2
    injection h2 with h2a h2b
    rw [← h2a]
    exact ⟨rfl, rfl⟩
  · have := buildFromConfig_error_state h
    rw [this]
    exact ⟨rfl, rfl⟩
  · injection h with h1 h2
    injection h2 with h2a h2b
    rw [← h2a]
    exact ⟨rfl, rfl⟩

theorem buildPhase_ok {env : SessionEnv} {src : ConfigSource}
    {st : SessionState} {nm : Option String} {ck : String} {pre : List Event}
    {s : Session} {st2 : SessionState} {tr : List Event}
    (h : buildPhase env src st nm ck pre = (.ok s, st2, tr)) :
    s.sid = st.nextId ∧
    st2.sessionCache = aupdate st.sessionCache ck s ∧
    st2.nextId = st.nextId + 1 ∧
    countBuilds tr = countBuilds pre + 1 := by
  unfold buildPhase at h
  split at h
  · exact Except.noConfusion (congrArg Prod.fst h)
  · rename_i cfg cc2 ctr hl
    obtain ⟨ha, hb, hc2, hd⟩ := buildFromConfig_ok h
    refine ⟨ha, hb, hc2, ?_⟩
    rw [hd, countBuilds_append]
    have : countBuilds (Event.configFetch :: ctr) = countBuilds ctr := rfl
    rw [this, get_worker_config_no_builds hl]
  · exact Except.noConfusion (congrArg Prod.fst h)

theorem constructStore_trace (env : SessionEnv) (st1 : SessionState) (cfg : JObj)
    (ck : String) (pre4 : List Event) (args : SessionParams) :
    ∃ rest, (constructStore env st1 cfg ck pre4 args).2.2 = pre4 ++ rest := by
  unfold constructStore
  split
  · exact ⟨_, rfl⟩
  · exact ⟨_, by rw [List.append_assoc]⟩

theorem buildFromConfig_trace (env : SessionEnv) (st1 : SessionState) (cfg : JObj)
    (ck : String) (pre1 : List Event) :
    ∃ rest, (buildFromConfig env st1 cfg ck pre1).2.2 = pre1 ++ rest := by
  unfold buildFromConfig
  split
  · exact ⟨_, rfl⟩
  · split
    · exact ⟨_, by rw [List.append_assoc]⟩
    · split
      · exact ⟨_, by rw [List.append_assoc, List.append_assoc]⟩
      · rename_i x1 v1 e1 h1 x2 v2 e2 h2 x3 v3 e3 h3
        obtain ⟨rest, hr⟩ := constructStore_trace _ _ _ _ _ _
        refine ⟨e1 ++ (e2 ++ (e3 ++ rest)), ?_⟩
        rw [hr]
        simp only [List.append_assoc]

theorem buildPhase_configFetch (env : SessionEnv) (src : ConfigSource)
    (st : SessionState) (nm : Option String) (ck : String) (pre : List Event) :
    Event.configFetch ∈ (buildPhase env src st nm ck pre).2.2 := by
  unfold buildPhase
  split
  · exact List.mem_append_right _ (List.mem_cons_self _ _)
  · obtain ⟨rest, hr⟩ := buildFromConfig_trace _ _ _ _ _
    rw [hr]
    exact List.mem_append_left _ (List.mem_append_right _ (List.mem_cons_self _ _))
  · exact List.mem_append_right _ (List.mem_cons_self _ _)

theorem get_session_cached_alive {env : SessionEnv} {src : ConfigSource}
    {st : SessionState} {nm : Option String} {s : Session}
    (hc : alookup st.sessionCache (cacheKey nm) = some s)
    (ha : env.probe s.sid = .alive) :
    get_session env src st nm = (.ok s, st, [.log (.returningCached (resolveArg nm))]) := by
  simp only [get_session, hc, ha]

theorem get_session_ok_cached {env : SessionEnv} {src : ConfigSource}
    {st : SessionState} {nm : Option String} {s : Session} {st2 : SessionState}
    {tr : List Event}
    (h : get_session env src st nm = (.ok s, st2, tr)) :
    alookup st2.sessionCache (cacheKey nm) = some s := by
  unfold get_session at h
  split at h
  · rename_i session hcc
    split at h
    · injection h with h1 h2
      injection h2 with h2a h2b
      rw [← h2a, ← Except.ok.inj h1]
      exact hcc
    · obtain ⟨-, hb, -, -⟩ := buildPhase_ok h
      rw [hb]
      exact alookup_aupdate_self _ _ _
    · obtain ⟨-, hb, -, -⟩ := buildPhase_ok h
      rw [hb]
      exact alookup_aupdate_self _ _ _
  · obtain ⟨-, hb, -, -⟩ := buildPhase_ok h
    rw [hb]
    exact alookup_aupdate_self _ _ _

/-! ## Concrete setups used by the session claims -/

/-- the empty initial module state -/
def st0 : SessionState := ⟨[], 0, none⟩

def w1src : ConfigSource := ⟨some "deephaven_workers.json", fun _ => some minimalDoc⟩

/-- every probe alive, every build succeeds, no readable files -/
def w1env : SessionEnv := ⟨fun _ => none, fun _ => .alive, fun _ => none⟩

def w1session : Session := ⟨0, sessionArgs []⟩

def w1st1 : SessionState := ⟨[("a", w1session)], 1, some minimalCfg⟩

def w1tr1 : List Event :=
  [.configFetch, .readConfigSource "deephaven_workers.json",
   .log (.noCert "TLS root certs"), .log (.noCert "client cert chain"),
   .log (.noCert "client private key"), .log (.creatingSession [] "a"),
   .sessionBuild, .log (.sessionCreated "a"), .log (.sessionCached "a")]

/-! ## Claim C1 -/

/-- C1: if a call returned a handle and that handle probes alive, the next
`get_session` call for the same name returns the identical handle with the
state untouched, and its whole trace is the single cache-hit log line — in
particular no `Session` construction and no `get_worker_config` call. -/
theorem get_session_second_call_reuses (env : SessionEnv) (src : ConfigSource)
    (st : SessionState) (nm : Option String) (s1 : Session) (st1 : SessionState)
    (tr1 : List Event)
    (h1 : get_session env src st nm = (.ok s1, st1, tr1))
    (halive : env.probe s1.sid = .alive) :
    get_session env src st1 nm
      = (.ok s1, st1, [.log (.returningCached (resolveArg nm))]) ∧
    countBuilds [Event.log (.returningCached (resolveArg nm))] = 0 ∧
    Event.configFetch ∉ [Event.log (.returningCached (resolveArg nm))] := by
  refine ⟨get_session_cached_alive (get_session_ok_cached h1) halive, rfl, ?_⟩
  intro hmem
  exact Event.noConfusion (List.mem_singleton.mp hmem)

theorem get_session_second_call_reuses_witness :
    get_session w1env w1src w1st1 (some "a")
      = (.ok w1session, w1st1, [.log (.returningCached (some "a"))]) ∧
    countBuilds [Event.log (.returningCached (some "a"))] = 0 ∧
    Event.configFetch ∉ [Event.log (.returningCached (some "a"))] :=
  get_session_second_call_reuses w1env w1src st0 (some "a") w1session w1st1 w1tr1
    rfl rfl

/-! ## Claim C2 -/

/-- C2: with a cached entry whose probe reports dead or raises, the call does
not fail on account of the probe — it proceeds to fetch the worker's config
(a `configFetch` event occurs) — and if it returns a handle, that handle is a
fresh allocation distinct from the stale one, stored in the cache under the
same key. -/
theorem get_session_dead_probe_rebuilds (env : SessionEnv) (src : ConfigSource)
    (st : SessionState) (nm : Option String) (s : Session)
    (hwf : wfState st)
    (hc : alookup st.sessionCache (cacheKey nm) = some s)
    (hdead : env.probe s.sid = .dead ∨ ∃ m, env.probe s.sid = .raises m) :
    Event.configFetch ∈ (get_session env src st nm).2.2 ∧
    (∀ s2 st2 tr, get_session env src st nm = (.ok s2, st2, tr) →
      s2.sid = st.nextId ∧ s2 ≠ s ∧
      alookup st2.sessionCache (cacheKey nm) = some s2) := by
  have hslt : s.sid < st.nextId := hwf (cacheKey nm, s) (alookup_mem hc)
  have hrun : ∃ pre, get_session env src st nm = buildPhase env src st nm (cacheKey nm) pre := by
    rcases hdead with hd | ⟨m, hd⟩
    · exact ⟨[.log (.cachedNotAlive (resolveArg nm))],
        by simp only [get_session, hc, hd]⟩
    · exact ⟨[.log (.livenessCheckError (resolveArg nm) m)],
        by simp only [get_session, hc, hd]⟩
  obtain ⟨pre, hrun⟩ := hrun
  constructor
  · rw [hrun]
    exact buildPhase_configFetch _ _ _ _ _ _
  · intro s2 st2 tr h
    rw [hrun] at h
    obtain ⟨ha, hb, -, -⟩ := buildPhase_ok h
    refine ⟨ha, ?_, by rw [hb]; exact alookup_aupdate_self _ _ _⟩
    intro heq
    rw [heq] at ha
    rw [ha] at hslt
    exact Nat.lt_irrefl _ hslt

def c2env : SessionEnv := ⟨fun _ => none, fun _ => .dead, fun _ => none⟩

def c2st : SessionState := ⟨[("a", w1session)], 1, some minimalCfg⟩

def c2session : Session := ⟨1, sessionArgs []⟩

def c2tr : List Event :=
  [.log (.cachedNotAlive (some "a")), .configFetch,
   .log (.noCert "TLS root certs"), .log (.noCert "client cert chain"),
   .log (.noCert "client private key"), .log (.creatingSession [] "a"),
   .sessionBuild, .log (.sessionCreated "a"), .log (.sessionCached "a")]

theorem get_session_dead_probe_rebuilds_witness :
    c2session.sid = c2st.nextId ∧ c2session ≠ w1session ∧
    alookup (⟨[("a", c2session)], 2, some minimalCfg⟩ : SessionState).sessionCache
      (cacheKey (some "a")) = some c2session :=
  (get_session_dead_probe_rebuilds c2env w1src c2st (some "a") w1session
    (fun kv hkv => by rw [List.mem_singleton.mp hkv]; exact Nat.one_pos)
    rfl (Or.inl rfl)).2
    c2session ⟨[("a", c2session)], 2, some minimalCfg⟩ c2tr rfl

/-! ## Claim C3 -/

def certDoc : JValue :=
  .jobj [("workers", .jobj [("w", .jobj [("tls_root_certs", .jstr "/p")])])]

def certCfg : JObj :=
  [("workers", .jobj [("w", .jobj [("tls_root_certs", .jstr "/p")])])]

def c3src : ConfigSource := ⟨some "c", fun _ => some certDoc⟩

def c3env : SessionEnv := ⟨fun _ => none, fun _ => .dead, fun _ => none⟩

def staleSession : Session := ⟨0, sessionArgs []⟩

def c3st : SessionState := ⟨[("w", staleSession)], 1, none⟩

/-- C3, counterexample.  A stale entry for `"w"` is cached, the probe reports
dead, and the rebuild fails while reading the certificate file.  The error
propagates — but the cache is NOT left without an entry for the key: the
stale handle is still there (entries are only ever overwritten on success,
never removed). -/
theorem get_session_failed_rebuild_keeps_stale_entry :
    (get_session c3env c3src c3st (some "w")).1 = .error (.certLoad "/p") ∧
    alookup (get_session c3env c3src c3st (some "w")).2.1.sessionCache "w"
      = some staleSession :=
  ⟨rfl, rfl⟩

/-- C3 (amended): if any step of building a session fails, `get_session`
propagates the error and persists nothing: the session cache mapping and the
allocation counter are exactly as before the call — in particular a key that
was absent before the call is still absent, so a later call may retry the
build; a pre-existing stale entry, however, remains in place. -/
theorem get_session_error_preserves_cache (env : SessionEnv) (src : ConfigSource)
    (st : SessionState) (nm : Option String) (e : DhError) (st2 : SessionState)
    (tr : List Event)
    (h : get_session env src st nm = (.error e, st2, tr)) :
    st2.sessionCache = st.sessionCache ∧ st2.nextId = st.nextId ∧
    (alookup st.sessionCache (cacheKey nm) = none →
      alookup st2.sessionCache (cacheKey nm) = none) := by
  have hmain : st2.sessionCache = st.sessionCache ∧ st2.nextId = st.nextId := by
    unfold get_session at h
    split at h
    · split at h
      · exact Except.noConfusion (congrArg Prod.fst h)
      · exact buildPhase_error_state h
      · exact buildPhase_error_state h
    · exact buildPhase_error_state h
  exact ⟨hmain.1, hmain.2, fun hn => by rw [hmain.1]; exact hn⟩

def c3bst : SessionState := ⟨[], 0, none⟩

def c3btr : List Event :=
  [.configFetch, .readConfigSource "c",
   .log (.loadingCert "TLS root certs" (.jstr "/p")), .certRead "/p",
   .log (.certLoadError "/p" "unreadable")]

theorem get_session_error_preserves_cache_witness :
    (⟨[], 0, some certCfg⟩ : SessionState).sessionCache = c3bst.sessionCache ∧
    (⟨[], 0, some certCfg⟩ : SessionState).nextId = c3bst.nextId ∧
    (alookup c3bst.sessionCache (cacheKey (some "w")) = none →
      alookup (⟨[], 0, some certCfg⟩ : SessionState).sessionCache (cacheKey (some "w"))
        = none) :=
  get_session_error_preserves_cache c3env c3src c3bst (some "w") (.certLoad "/p")
    ⟨[], 0, some certCfg⟩ c3btr rfl

/-! ## Claim C7 -/

/-- C7, counterexample.  A full `get_session` run on a worker whose config
omits `auth_type` constructs the handle with `auth_type = None`, not
`"Anonymous"`: `_sessions.py` line 69 reads `cfg.get("auth_type", None)` and
passes the `None` through to the `Session(...)` constructor. -/
theorem get_session_builds_null_auth_type :
    (get_session w1env w1src st0 (some "a")).1 = .ok w1session ∧
    w1session.params.auth_type = .ofJson .jnull ∧
    PyVal.ofJson .jnull ≠ PyVal.ofJson (.jstr "Anonymous") :=
  ⟨rfl, rfl, fun hcontra => JValue.noConfusion (PyVal.ofJson.inj hcontra)⟩

/-- C7 (amended): when `session_type` is absent both builders construct the
handle with `session_type "python"`; when `auth_type` is absent the older
`__init__._get_session` builder constructs with `"Anonymous"`, but the
session-manager builder `_sessions.get_session` constructs with `None`. -/
theorem session_builder_defaults (cfg : JObj) :
    (alookup cfg "auth_type" = none →
      (sessionArgs cfg).auth_type = .ofJson .jnull ∧
      (initSessionArgs cfg).auth_type = .ofJson (.jstr "Anonymous")) ∧
    (alookup cfg "session_type" = none →
      (sessionArgs cfg).session_type = .ofJson (.jstr "python") ∧
      (initSessionArgs cfg).session_type = .ofJson (.jstr "python")) := by
  constructor
  · intro h
    exact ⟨by simp [sessionArgs, cfgGet, h], by simp [initSessionArgs, cfgGet, h]⟩
  · intro h
    exact ⟨by simp [sessionArgs, cfgGet, h], by simp [initSessionArgs, cfgGet, h]⟩

theorem session_builder_defaults_witness :
    (sessionArgs []).auth_type = .ofJson .jnull ∧
    (initSessionArgs []).auth_type = .ofJson (.jstr "Anonymous") :=
  (session_builder_defaults []).1 rfl

/-! ## Claim C9 -/

theorem run_calls_all_cached (env : SessionEnv) (src : ConfigSource)
    (nm : Option String) (s : Session) (stc : SessionState) (n : Nat)
    (hc : alookup stc.sessionCache (cacheKey nm) = some s)
    (halive : ∀ i, env.probe i = .alive) :
    (run_calls env src (List.replicate n nm) stc).1 = List.replicate n (.ok s) ∧
    (run_calls env src (List.replicate n nm) stc).2.1 = stc ∧
    countBuilds (run_calls env src (List.replicate n nm) stc).2.2 = 0 := by
  induction n with
  | zero => exact ⟨rfl, rfl, rfl⟩
  | succ k ih =>
    obtain ⟨ih1, ih2, ih3⟩ := ih
    have hcall : get_session env src stc nm
        = (.ok s, stc, [.log (.returningCached (resolveArg nm))]) :=
      get_session_cached_alive hc (halive s.sid)
    rw [List.replicate_succ]
    simp only [run_calls, hcall]
    refine ⟨?_, ih2, ?_⟩
    · rw [List.replicate_succ, ih1]
    · rw [countBuilds_append, ih3]
      rfl

/-- C9: with the whole lookup-probe-build-store sequence executed under the
single global `_SESSION_CACHE_LOCK`, each `get_session` call is one atomic
transition, and a concurrent execution of callers is a sequential run of
those transitions.  For any number of callers asking for the same
never-before-seen key, with the built handle staying alive, exactly one
handle is built and every caller receives that single handle. -/
theorem concurrent_get_session_single_build (env : SessionEnv) (src : ConfigSource)
    (st : SessionState) (nm : Option String) (s0 : Session) (st1 : SessionState)
    (tr1 : List Event) (n : Nat)
    (halive : ∀ i, env.probe i = .alive)
    (hfresh : alookup st.sessionCache (cacheKey nm) = none)
    (h1 : get_session env src st nm = (.ok s0, st1, tr1)) :
    (run_calls env src (List.replicate (n+1) nm) st).1
      = List.replicate (n+1) (.ok s0) ∧
    countBuilds (run_calls env src (List.replicate (n+1) nm) st).2.2 = 1 := by
  have hcached : alookup st1.sessionCache (cacheKey nm) = some s0 :=
    get_session_ok_cached h1
  have hb1 : countBuilds tr1 = 1 := by
    have h1b := h1
    unfold get_session at h1b
    rw [hfresh] at h1b
    replace h1b : buildPhase env src st nm (cacheKey nm) [] = (.ok s0, st1, tr1) := h1b
    obtain ⟨-, -, -, hcount⟩ := buildPhase_ok h1b
    simpa [countBuilds] using hcount
  obtain ⟨ha, hstc, hb0⟩ := run_calls_all_cached env src nm s0 st1 n hcached halive
  rw [List.replicate_succ]
  simp only [run_calls, h1]
  constructor
  · rw [List.replicate_succ, ha]
  · rw [countBuilds_append, hb1, hb0]

theorem concurrent_get_session_single_build_witness :
    (run_calls w1env w1src (List.replicate 2 (some "a")) st0).1
      = List.replicate 2 (.ok w1session) ∧
    countBuilds (run_calls w1env w1src (List.replicate 2 (some "a")) st0).2.2 = 1 :=
  concurrent_get_session_single_build w1env w1src st0 (some "a") w1session w1st1
    w1tr1 1 (fun _ => rfl) rfl rfl

/-! ## Claim C8: secret-noninterference of the diagnostic output

The secrets of a session build are the `auth_token` value and the byte
contents of the three credential files.  We prove that the whole event trace
of `get_session` (hence its log output) is identical across any two runs that
differ only in those secrets, so no log line can contain them: they appear at
most as the `<redacted>` marker, which is the same in both runs. -/

/-- Worker configs that agree everywhere except possibly in the value at the
`auth_token` key. -/
def wcfgEquiv (c1 c2 : JObj) : Prop :=
  List.Forall₂ (fun a b => (a : String × JValue).1 = (b : String × JValue).1 ∧
    (a.1 = "auth_token" ∨ a.2 = b.2)) c1 c2

/-- Worker maps with the same names whose configs are `wcfgEquiv`. -/
def workersEquiv (w1 w2 : JObj) : Prop :=
  List.Forall₂ (fun a b => (a : String × JValue).1 = (b : String × JValue).1 ∧
    ∃ c1 c2, a.2 = .jobj c1 ∧ b.2 = .jobj c2 ∧ wcfgEquiv c1 c2) w1 w2

/-- Config documents that agree except in worker `auth_token` values. -/
def docEquiv (d1 d2 : JObj) : Prop :=
  List.Forall₂ (fun a b => (a : String × JValue).1 = (b : String × JValue).1 ∧
    ((a.1 = "workers" ∧ ∃ w1 w2, a.2 = .jobj w1 ∧ b.2 = .jobj w2 ∧ workersEquiv w1 w2)
      ∨ a.2 = b.2)) d1 d2

/-- Equality of constructor-argument values up to loaded byte contents. -/
def pvShapeEquiv : PyVal → PyVal → Prop
  | .bytes _, .bytes _ => True
  | a, b => a = b

/-- Constructor argument lists that may differ only in the `auth_token` value
and the loaded certificate byte contents. -/
def paramsSecretEquiv (p1 p2 : SessionParams) : Prop :=
  p1.host = p2.host ∧ p1.port = p2.port ∧ p1.auth_type = p2.auth_type ∧
  p1.never_timeout = p2.never_timeout ∧ p1.session_type = p2.session_type ∧
  p1.use_tls = p2.use_tls ∧
  pvShapeEquiv p1.tls_root_certs p2.tls_root_certs ∧
  pvShapeEquiv p1.client_cert_chain p2.client_cert_chain ∧
  pvShapeEquiv p1.client_private_key p2.client_private_key

theorem alookup_forall2 {α : Type} {R : (String × α) → (String × α) → Prop}
    {l1 l2 : List (String × α)}
    (hkeys : ∀ a b, R a b → a.1 = b.1)
    (h : List.Forall₂ R l1 l2) (k : String) :
    (alookup l1 k = none ∧ alookup l2 k = none) ∨
    (∃ v1 v2, alookup l1 k = some v1 ∧ alookup l2 k = some v2 ∧ R (k, v1) (k, v2)) := by
  induction h with
  | nil => exact Or.inl ⟨rfl, rfl⟩
  | cons hab hrest ih =>
    rename_i a b l1t l2t
    obtain ⟨k1, v1⟩ := a
    obtain ⟨k2, v2⟩ := b
    have hk12 : k1 = k2 := hkeys _ _ hab
    subst hk12
    by_cases hk : k1 = k
    · subst hk
      exact Or.inr ⟨v1, v2, by simp [alookup], by simp [alookup], hab⟩
    · simpa [alookup, hk] using ih

theorem wcfgEquiv_refl (c : JObj) : wcfgEquiv c c := by
  induction c with
  | nil => exact List.Forall₂.nil
  | cons kv rest ih => exact List.Forall₂.cons ⟨rfl, Or.inr rfl⟩ ih

theorem wcfgEquiv_lookup {c1 c2 : JObj} (h : wcfgEquiv c1 c2) (k : String)
    (hk : k ≠ "auth_token") : alookup c1 k = alookup c2 k := by
  rcases alookup_forall2 (fun a b hab => hab.1) h k with ⟨h1, h2⟩ | ⟨v1, v2, h1, h2, hr⟩
  · rw [h1, h2]
  · rcases hr.2 with hbad | heq
    · exact absurd hbad hk
    · rw [h1, h2]
      exact congrArg some heq

theorem workersEquiv_lookup {w1 w2 : JObj} (h : workersEquiv w1 w2) (s : String) :
    (alookup w1 s = none ∧ alookup w2 s = none) ∨
    (∃ c1 c2, alookup w1 s = some (.jobj c1) ∧ alookup w2 s = some (.jobj c2) ∧
      wcfgEquiv c1 c2) := by
  rcases alookup_forall2 (fun a b hab => hab.1) h s with ⟨h1, h2⟩ | ⟨v1, v2, h1, h2, hr⟩
  · exact Or.inl ⟨h1, h2⟩
  · obtain ⟨-, c1, c2, hv1, hv2, hc⟩ := hr
    exact Or.inr ⟨c1, c2, by rw [h1]; exact congrArg some hv1,
      by rw [h2]; exact congrArg some hv2, hc⟩

theorem docEquiv_default_eq {d1 d2 : JObj} (h : docEquiv d1 d2) :
    alookup d1 "default_worker" = alookup d2 "default_worker" := by
  rcases alookup_forall2 (fun a b hab => hab.1) h "default_worker" with
    ⟨h1, h2⟩ | ⟨v1, v2, h1, h2, hr⟩
  · rw [h1, h2]
  · rcases hr.2 with ⟨hbad, -⟩ | heq
    · exact absurd hbad (by simp)
    · rw [h1, h2]
      exact congrArg some heq

theorem docEquiv_workers {d1 d2 : JObj} (h : docEquiv d1 d2) :
    (alookup d1 "workers" = none ∧ alookup d2 "workers" = none) ∨
    (∃ w1 w2, alookup d1 "workers" = some (.jobj w1) ∧
      alookup d2 "workers" = some (.jobj w2) ∧ workersEquiv w1 w2) ∨
    (∃ v, alookup d1 "workers" = some v ∧ alookup d2 "workers" = some v) := by
  rcases alookup_forall2 (fun a b hab => hab.1) h "workers" with
    ⟨h1, h2⟩ | ⟨v1, v2, h1, h2, hr⟩
  · exact Or.inl ⟨h1, h2⟩
  · rcases hr.2 with ⟨-, w1, w2, hv1, hv2, hw⟩ | heq
    · exact Or.inr (Or.inl ⟨w1, w2, by rw [h1]; exact congrArg some hv1,
        by rw [h2]; exact congrArg some hv2, hw⟩)
    · exact Or.inr (Or.inr ⟨v1, h1, by rw [h2]; exact (congrArg some heq).symm⟩)

theorem redactCfg_equiv {c1 c2 : JObj} (h : wcfgEquiv c1 c2) :
    redactCfg c1 = redactCfg c2 := by
  induction h with
  | nil => rfl
  | cons hab hrest ih =>
    rename_i a b t1 t2
    obtain ⟨k1, v1⟩ := a
    obtain ⟨k2, v2⟩ := b
    obtain ⟨hk, hv⟩ := hab
    simp only at hk
    subst hk
    by_cases hs : isSecretField k1 = true
    · simpa [redactCfg, hs] using ih
    · have hv2 : v1 = v2 := by
        rcases hv with hk1 | he
        · have hk1b : k1 = "auth_token" := hk1
          exact absurd (by rw [hk1b]; decide) hs
        · exact he
      subst hv2
      simpa [redactCfg, hs] using ih

/-- How the worker-config fetches of two secret-equivalent runs relate:
same error, worker configs related by `wcfgEquiv`, or identical values. -/
inductive CfgResultEquiv : Except DhError JValue → Except DhError JValue → Prop where
  | err : ∀ e, CfgResultEquiv (.error e) (.error e)
  | ok : ∀ c1 c2, wcfgEquiv c1 c2 → CfgResultEquiv (.ok (.jobj c1)) (.ok (.jobj c2))
  | okEq : ∀ v, CfgResultEquiv (.ok v) (.ok v)

theorem gwcp_equiv {d1 d2 : JObj} (hdoc : docEquiv d1 d2) (nm : Option String) :
    CfgResultEquiv (get_worker_config_pure d1 nm) (get_worker_config_pure d2 nm) := by
  unfold get_worker_config_pure
  rw [docEquiv_default_eq hdoc]
  rcases docEquiv_workers hdoc with ⟨h1, h2⟩ | ⟨w1, w2, h1, h2, hw⟩ | ⟨v, h1, h2⟩
  · rw [h1, h2]
    exact CfgResultEquiv.err _
  · rw [h1, h2]
    unfold gwcp_core
    simp only [Option.getD_some]
    by_cases hne : w1.isEmpty = true
    · have hne2 : w2.isEmpty = true := by
        have hl := List.Forall₂.length_eq hw
        rw [List.isEmpty_iff] at hne ⊢
        subst hne
        exact List.length_eq_zero.mp hl.symm
      rw [if_pos hne, if_pos hne2]
      exact CfgResultEquiv.err _
    · have hne2 : ¬(w2.isEmpty = true) := by
        have hl := List.Forall₂.length_eq hw
        rw [List.isEmpty_iff] at hne ⊢
        intro hc
        subst hc
        exact hne (List.length_eq_zero.mp hl)
      rw [if_neg hne, if_neg hne2]
      by_cases ht : pyTruthy (if pyTruthy (argToJVal nm) = true then argToJVal nm
          else (alookup d2 "default_worker").getD .jnull) = true
      · rw [if_pos ht, if_pos ht]
        cases hres : (if pyTruthy (argToJVal nm) = true then argToJVal nm
            else (alookup d2 "default_worker").getD .jnull) with
        | jstr s =>
          rcases workersEquiv_lookup hw s with ⟨ha, hb⟩ | ⟨c1, c2, ha, hb, hc⟩
          · show CfgResultEquiv (match alookup w1 s with
              | some cfg => Except.ok cfg
              | none => .error (.workerResolution ("Worker not found in config: " ++ s)))
              (match alookup w2 s with
              | some cfg => Except.ok cfg
              | none => .error (.workerResolution ("Worker not found in config: " ++ s)))
            rw [ha, hb]
            exact CfgResultEquiv.err _
          · show CfgResultEquiv (match alookup w1 s with
              | some cfg => Except.ok cfg
              | none => .error (.workerResolution ("Worker not found in config: " ++ s)))
              (match alookup w2 s with
              | some cfg => Except.ok cfg
              | none => .error (.workerResolution ("Worker not found in config: " ++ s)))
            rw [ha, hb]
            exact CfgResultEquiv.ok c1 c2 hc
        | jnull => exact CfgResultEquiv.err _
        | jbool b => exact CfgResultEquiv.err _
        | jint n => exact CfgResultEquiv.err _
        | jarr xs => exact CfgResultEquiv.err _
        | jobj fs => exact CfgResultEquiv.err _
      · rw [if_neg ht, if_neg ht]
        exact CfgResultEquiv.err _
  · rw [h1, h2]
    cases hX : gwcp_core (some v) (alookup d2 "default_worker") nm with
    | error e => exact CfgResultEquiv.err e
    | ok u => exact CfgResultEquiv.okEq u

/-- How the certificate-loading results of two secret-equivalent runs
relate: same error, or success with byte contents possibly differing. -/
inductive CertResultEquiv : Except DhError PyVal → Except DhError PyVal → Prop where
  | err : ∀ e, CertResultEquiv (.error e) (.error e)
  | ok : ∀ v1 v2, pvShapeEquiv v1 v2 → CertResultEquiv (.ok v1) (.ok v2)

theorem loadCert_equiv {fs1 fs2 : String → Option (List Nat)}
    (hfs : ∀ p, (fs1 p).isSome = (fs2 p).isSome) (tag : String) (v : PyVal) :
    CertResultEquiv (loadCert fs1 tag v).1 (loadCert fs2 tag v).1 ∧
    (loadCert fs1 tag v).2 = (loadCert fs2 tag v).2 := by
  cases v with
  | bytes bs => exact ⟨CertResultEquiv.ok (PyVal.bytes bs) (PyVal.bytes bs) trivial, rfl⟩
  | ofJson jv =>
    cases jv with
    | jstr path =>
      simp only [loadCert]
      by_cases ht : pyTruthy (JValue.jstr path) = true
      · rw [if_pos ht, if_pos ht]
        cases hp1 : fs1 path with
        | some bs1 =>
          have hs2 : (fs2 path).isSome = true := by
            rw [← hfs path, hp1]
            rfl
          obtain ⟨bs2, hp2⟩ := Option.isSome_iff_exists.mp hs2
          rw [hp2]
          exact ⟨CertResultEquiv.ok (PyVal.bytes bs1) (PyVal.bytes bs2) trivial, rfl⟩
        | none =>
          have hs2 : fs2 path = none := by
            have hx := hfs path
            rw [hp1] at hx
            exact Option.not_isSome_iff_eq_none.mp
              (by rw [← hx]; exact Bool.noConfusion)
          rw [hs2]
          exact ⟨CertResultEquiv.err _, rfl⟩
      · rw [if_neg ht, if_neg ht]
        exact ⟨CertResultEquiv.ok _ _ rfl, rfl⟩
    | jnull =>
      exact ⟨CertResultEquiv.ok (PyVal.ofJson JValue.jnull)
        (PyVal.ofJson JValue.jnull) rfl, rfl⟩
    | jbool b =>
      cases b with
      | false =>
        exact ⟨CertResultEquiv.ok (PyVal.ofJson (JValue.jbool false))
          (PyVal.ofJson (JValue.jbool false)) rfl, rfl⟩
      | true => exact ⟨CertResultEquiv.err _, rfl⟩
    | jint n =>
      simp only [loadCert]
      by_cases ht : pyTruthy (JValue.jint n) = true
      · rw [if_pos ht]
        exact ⟨CertResultEquiv.err _, trivial⟩
      · rw [if_neg ht]
        exact ⟨CertResultEquiv.ok _ _ rfl, trivial⟩
    | jarr xs =>
      cases xs with
      | nil =>
        exact ⟨CertResultEquiv.ok (PyVal.ofJson (JValue.jarr []))
          (PyVal.ofJson (JValue.jarr [])) rfl, rfl⟩
      | cons x xt => exact ⟨CertResultEquiv.err _, rfl⟩
    | jobj fs =>
      cases fs with
      | nil =>
        exact ⟨CertResultEquiv.ok (PyVal.ofJson (JValue.jobj []))
          (PyVal.ofJson (JValue.jobj [])) rfl, rfl⟩
      | cons f ft => exact ⟨CertResultEquiv.err _, rfl⟩

theorem merged_params_equiv {cfg1 cfg2 : JObj} (hc : wcfgEquiv cfg1 cfg2)
    {v1 v2 w1 w2 u1 u2 : PyVal}
    (h1 : pvShapeEquiv v1 v2) (h2 : pvShapeEquiv w1 w2) (h3 : pvShapeEquiv u1 u2) :
    paramsSecretEquiv
      { sessionArgs cfg1 with tls_root_certs := v1, client_cert_chain := w1,
                              client_private_key := u1 }
      { sessionArgs cfg2 with tls_root_certs := v2, client_cert_chain := w2,
                              client_private_key := u2 } := by
  have hget : ∀ k, k ≠ "auth_token" → ∀ d, cfgGet cfg1 k d = cfgGet cfg2 k d := by
    intro k hk d
    unfold cfgGet
    rw [wcfgEquiv_lookup hc k hk]
  refine ⟨?_, ?_, ?_, ?_, ?_, ?_, h1, h2, h3⟩ <;>
    simp only [sessionArgs] <;> exact hget _ (by decide) _

theorem constructStore_trace_equiv (env1 env2 : SessionEnv)
    (st1 st2 : SessionState) (cfg1 cfg2 : JObj)
    (hred : redactCfg cfg1 = redactCfg cfg2)
    (ck : String) (pre4 : List Event) (args1 args2 : SessionParams)
    (hb : env1.buildFail args1 = env2.buildFail args2) :
    (constructStore env1 st1 cfg1 ck pre4 args1).2.2
      = (constructStore env2 st2 cfg2 ck pre4 args2).2.2 := by
  unfold constructStore
  rw [← hb]
  cases hbf : env1.buildFail args1 with
  | some msg => rw [hred]
  | none => rw [hred]

theorem buildFromConfig_trace_equiv (env1 env2 : SessionEnv)
    (hfs : ∀ p, (env1.fs p).isSome = (env2.fs p).isSome)
    (hbuild : ∀ q1 q2, paramsSecretEquiv q1 q2 → env1.buildFail q1 = env2.buildFail q2)
    (st1 st2 : SessionState) (cfg1 cfg2 : JObj) (hcfg : wcfgEquiv cfg1 cfg2)
    (ck : String) (pre1 : List Event) :
    (buildFromConfig env1 st1 cfg1 ck pre1).2.2
      = (buildFromConfig env2 st2 cfg2 ck pre1).2.2 := by
  have hget : ∀ k, k ≠ "auth_token" → ∀ d, cfgGet cfg1 k d = cfgGet cfg2 k d := by
    intro k hk d
    unfold cfgGet
    rw [wcfgEquiv_lookup hcfg k hk]
  have htls : (sessionArgs cfg2).tls_root_certs = (sessionArgs cfg1).tls_root_certs := by
    simp only [sessionArgs]
    exact (hget _ (by decide) _).symm
  have hccf : (sessionArgs cfg2).client_cert_chain = (sessionArgs cfg1).client_cert_chain := by
    simp only [sessionArgs]
    exact (hget _ (by decide) _).symm
  have hpkf : (sessionArgs cfg2).client_private_key
      = (sessionArgs cfg1).client_private_key := by
    simp only [sessionArgs]
    exact (hget _ (by decide) _).symm
  unfold buildFromConfig
  rw [htls, hccf, hpkf]
  obtain ⟨hre1, hev1⟩ := loadCert_equiv hfs "TLS root certs"
    ((sessionArgs cfg1).tls_root_certs)
  cases hq1 : loadCert env1.fs "TLS root certs" (sessionArgs cfg1).tls_root_certs with
  | mk r1 ev1 =>
    cases hq2 : loadCert env2.fs "TLS root certs" (sessionArgs cfg1).tls_root_certs with
    | mk r2 ev2 =>
      rw [hq1, hq2] at hre1 hev1
      replace hev1 : ev1 = ev2 := hev1
      replace hre1 : CertResultEquiv r1 r2 := hre1
      cases hre1 with
      | err e => exact congrArg (fun x => pre1 ++ x) hev1
      | ok a1 a2 hpv1 =>
        obtain ⟨hre2, hev2⟩ := loadCert_equiv hfs "client cert chain"
          ((sessionArgs cfg1).client_cert_chain)
        cases hq3 : loadCert env1.fs "client cert chain"
            (sessionArgs cfg1).client_cert_chain with
        | mk r3 ev3 =>
          cases hq4 : loadCert env2.fs "client cert chain"
              (sessionArgs cfg1).client_cert_chain with
          | mk r4 ev4 =>
            rw [hq3, hq4] at hre2 hev2
            replace hev2 : ev3 = ev4 := hev2
            replace hre2 : CertResultEquiv r3 r4 := hre2
            cases hre2 with
            | err e =>
              rw [hev1, hev2]
            | ok b1 b2 hpv2 =>
              obtain ⟨hre3, hev3⟩ := loadCert_equiv hfs "client private key"
                ((sessionArgs cfg1).client_private_key)
              cases hq5 : loadCert env1.fs "client private key"
                  (sessionArgs cfg1).client_private_key with
              | mk r5 ev5 =>
                cases hq6 : loadCert env2.fs "client private key"
                    (sessionArgs cfg1).client_private_key with
                | mk r6 ev6 =>
                  rw [hq5, hq6] at hre3 hev3
                  replace hev3 : ev5 = ev6 := hev3
                  replace hre3 : CertResultEquiv r5 r6 := hre3
                  cases hre3 with
                  | err e =>
                    rw [hev1, hev2, hev3]
                  | ok c1 c2 hpv3 =>
                    rw [hev1, hev2, hev3]
                    exact constructStore_trace_equiv env1 env2 _ _ cfg1 cfg2
                      (redactCfg_equiv hcfg) ck _ _ _
                      (hbuild _ _ (merged_params_equiv hcfg hpv1 hpv2 hpv3))

theorem buildPhase_trace_equiv (env1 env2 : SessionEnv)
    (hfs : ∀ p, (env1.fs p).isSome = (env2.fs p).isSome)
    (hbuild : ∀ q1 q2, paramsSecretEquiv q1 q2 → env1.buildFail q1 = env2.buildFail q2)
    (src1 src2 : ConfigSource) (sc : List (String × Session)) (nid : Nat)
    (d1 d2 : JObj) (hdoc : docEquiv d1 d2)
    (nm : Option String) (ck : String) (pre : List Event) :
    (buildPhase env1 src1 ⟨sc, nid, some d1⟩ nm ck pre).2.2
      = (buildPhase env2 src2 ⟨sc, nid, some d2⟩ nm ck pre).2.2 := by
  unfold buildPhase
  rw [show get_worker_config (⟨sc, nid, some d1⟩ : SessionState).configCache src1 nm
      = (get_worker_config_pure d1 nm, some d1, []) from rfl]
  rw [show get_worker_config (⟨sc, nid, some d2⟩ : SessionState).configCache src2 nm
      = (get_worker_config_pure d2 nm, some d2, []) from rfl]
  have hequiv := gwcp_equiv hdoc nm
  generalize hg1 : get_worker_config_pure d1 nm = r1 at hequiv ⊢
  generalize hg2 : get_worker_config_pure d2 nm = r2 at hequiv ⊢
  cases hequiv with
  | err e => rfl
  | ok c1 c2 hc =>
    exact buildFromConfig_trace_equiv env1 env2 hfs hbuild _ _ c1 c2 hc ck _
  | okEq v =>
    cases v with
    | jobj c =>
      exact buildFromConfig_trace_equiv env1 env2 hfs hbuild _ _ c c
        (wcfgEquiv_refl c) ck _
    | jnull => rfl
    | jbool b => rfl
    | jint n => rfl
    | jstr s => rfl
    | jarr xs => rfl

/-- C8: the full event trace — hence the log output — of a session build is
unchanged under any variation of the secrets: the `auth_token` values stored
in the registry and the byte contents of the credential files.  Hypotheses:
the two runs share the probe oracle, their filesystems agree on which paths
are readable (contents free), the connection outcome does not depend on the
secret parts of the constructor arguments, and the two cached registries
agree except in `auth_token` values.  Since the traces are equal while the
secrets are arbitrary, no log line depends on — or can contain — the
`auth_token` value or the loaded bytes; the config line shows them only as
the `<redacted>` marker placed by `redactCfg`. -/
theorem get_session_logs_redact_secrets
    (env1 env2 : SessionEnv) (src1 src2 : ConfigSource)
    (sc : List (String × Session)) (nid : Nat) (d1 d2 : JObj) (nm : Option String)
    (hprobe : env1.probe = env2.probe)
    (hfs : ∀ p, (env1.fs p).isSome = (env2.fs p).isSome)
    (hbuild : ∀ q1 q2, paramsSecretEquiv q1 q2 → env1.buildFail q1 = env2.buildFail q2)
    (hdoc : docEquiv d1 d2) :
    logsOf (get_session env1 src1 ⟨sc, nid, some d1⟩ nm).2.2
      = logsOf (get_session env2 src2 ⟨sc, nid, some d2⟩ nm).2.2 := by
  have htr : (get_session env1 src1 ⟨sc, nid, some d1⟩ nm).2.2
      = (get_session env2 src2 ⟨sc, nid, some d2⟩ nm).2.2 := by
    unfold get_session
    rw [hprobe]
    rw [show (⟨sc, nid, some d1⟩ : SessionState).sessionCache = sc from rfl]
    split
    · rename_i osession session heq1
      show _ = (match env2.probe session.sid with
        | ProbeResult.alive =>
          (Except.ok session, (⟨sc, nid, some d2⟩ : SessionState),
           [Event.log (LogMsg.returningCached (resolveArg nm))])
        | ProbeResult.dead =>
          buildPhase env2 src2 ⟨sc, nid, some d2⟩ nm (cacheKey nm)
            [Event.log (LogMsg.cachedNotAlive (resolveArg nm))]
        | ProbeResult.raises msg =>
          buildPhase env2 src2 ⟨sc, nid, some d2⟩ nm (cacheKey nm)
            [Event.log (LogMsg.livenessCheckError (resolveArg nm) msg)]).2.2
      split
      · rfl
      · exact buildPhase_trace_equiv env1 env2 hfs hbuild src1 src2 sc nid d1 d2
          hdoc nm (cacheKey nm) _
      · exact buildPhase_trace_equiv env1 env2 hfs hbuild src1 src2 sc nid d1 d2
          hdoc nm (cacheKey nm) _
    · exact buildPhase_trace_equiv env1 env2 hfs hbuild src1 src2 sc nid d1 d2
        hdoc nm (cacheKey nm) _
  rw [htr]

def c8wcfg1 : JObj := [("auth_token", .jstr "secret-one"), ("tls_root_certs", .jstr "/p")]

def c8wcfg2 : JObj := [("auth_token", .jstr "secret-two"), ("tls_root_certs", .jstr "/p")]

def c8doc1 : JObj := [("workers", .jobj [("w", .jobj c8wcfg1)])]

def c8doc2 : JObj := [("workers", .jobj [("w", .jobj c8wcfg2)])]

def c8env1 : SessionEnv := ⟨fun _ => some [1], fun _ => .alive, fun _ => none⟩

def c8env2 : SessionEnv := ⟨fun _ => some [2], fun _ => .alive, fun _ => none⟩

theorem get_session_logs_redact_secrets_witness :
    logsOf (get_session c8env1 w1src ⟨[], 0, some c8doc1⟩ (some "w")).2.2
      = logsOf (get_session c8env2 w1src ⟨[], 0, some c8doc2⟩ (some "w")).2.2 :=
  get_session_logs_redact_secrets c8env1 c8env2 w1src w1src [] 0 c8doc1 c8doc2
    (some "w") rfl (fun _ => rfl) (fun _ _ _ => rfl)
    (List.Forall₂.cons
      ⟨rfl, Or.inl ⟨rfl, [("w", .jobj c8wcfg1)], [("w", .jobj c8wcfg2)], rfl, rfl,
        List.Forall₂.cons
          ⟨rfl, c8wcfg1, c8wcfg2, rfl, rfl,
            List.Forall₂.cons ⟨rfl, Or.inl rfl⟩
              (List.Forall₂.cons ⟨rfl, Or.inr rfl⟩ List.Forall₂.nil)⟩
          List.Forall₂.nil⟩⟩
      List.Forall₂.nil)

end DhMcp
